import Mathlib

/-!
# Workflow & Claim-Queue Engine — formalization

Shallow embedding of the review-workflow engine of the `practo-hub-cms-be`
repository: the kind-specific transition tables and validator
(`src/config/constants.ts`), and the workflow service operations
(transition / lock / unlock / claim / release / publish) of
`WorkflowService` (workflow service module).

Enumerations are taken from the Prisma client the workflow code compiles
against (`src/generated/prisma`); the backing store is modelled as explicit
record state, Prisma's `$transaction` as an all-or-nothing application of the
transaction body, and `Date` values as abstract `Nat` timestamps passed in by
the caller.
-/

namespace PractoCms

/-- `UserRole` enum of the generated Prisma client (`edge.js`), the enum the
workflow constants reference (`MEDICAL_REVIEWER`, `DOCTOR_CREATOR`, ...). -/
inductive UserRole where
  | SUPER_ADMIN
  | MEDICAL_REVIEWER
  | BRAND_REVIEWER
  | DOCTOR_CREATOR
  | AGENCY_POC
  | CONTENT_APPROVER
  | PUBLISHER
  | VIEWER
deriving DecidableEq, Repr, Fintype

/-- `ScriptStatus` enum of the generated Prisma client. -/
inductive ScriptStatus where
  | DRAFT
  | MEDICAL_REVIEW
  | BRAND_REVIEW
  | DOCTOR_REVIEW
  | APPROVED
  | LOCKED
  | REJECTED
deriving DecidableEq, Repr, Fintype

/-- `VideoStatus` enum of the generated Prisma client.  Note the stage order
differs from scripts: BRAND_REVIEW precedes MEDICAL_REVIEW. -/
inductive VideoStatus where
  | DRAFT
  | BRAND_REVIEW
  | MEDICAL_REVIEW
  | DOCTOR_REVIEW
  | APPROVED
  | LOCKED
  | PUBLISHED
  | ARCHIVED
  | REJECTED
deriving DecidableEq, Repr, Fintype

/-- `ScriptAction` union type of `src/config/constants.ts`. -/
inductive ScriptAction where
  | SUBMIT
  | APPROVE
  | REJECT
  | LOCK
  | UNLOCK
deriving DecidableEq, Repr, Fintype

/-- `VideoAction` union type of `src/config/constants.ts`. -/
inductive VideoAction where
  | SUBMIT
  | APPROVE
  | REJECT
  | LOCK
  | PUBLISH
  | UNLOCK
  | ARCHIVE
deriving DecidableEq, Repr, Fintype

/-- `ReviewDecision` enum of the generated Prisma client. -/
inductive ReviewDecision where
  | PENDING
  | APPROVED
  | REJECTED
deriving DecidableEq, Repr

/-- `TopicStatus` enum of the generated Prisma client. -/
inductive TopicStatus where
  | ASSIGNED
  | DOCTOR_INPUT_PENDING
  | DOCTOR_INPUT_RECEIVED
  | IN_PROGRESS
  | COMPLETED
deriving DecidableEq, Repr

/-- String value of a `UserRole` member (the Prisma enum values are their
names; used when the source interpolates a role into an error message). -/
def roleName : UserRole → String
  | .SUPER_ADMIN => "SUPER_ADMIN"
  | .MEDICAL_REVIEWER => "MEDICAL_REVIEWER"
  | .BRAND_REVIEWER => "BRAND_REVIEWER"
  | .DOCTOR_CREATOR => "DOCTOR_CREATOR"
  | .AGENCY_POC => "AGENCY_POC"
  | .CONTENT_APPROVER => "CONTENT_APPROVER"
  | .PUBLISHER => "PUBLISHER"
  | .VIEWER => "VIEWER"

/-- String value of a `ScriptStatus` member. -/
def scriptStatusName : ScriptStatus → String
  | .DRAFT => "DRAFT"
  | .MEDICAL_REVIEW => "MEDICAL_REVIEW"
  | .BRAND_REVIEW => "BRAND_REVIEW"
  | .DOCTOR_REVIEW => "DOCTOR_REVIEW"
  | .APPROVED => "APPROVED"
  | .LOCKED => "LOCKED"
  | .REJECTED => "REJECTED"

/-- String value of a `VideoStatus` member. -/
def videoStatusName : VideoStatus → String
  | .DRAFT => "DRAFT"
  | .BRAND_REVIEW => "BRAND_REVIEW"
  | .MEDICAL_REVIEW => "MEDICAL_REVIEW"
  | .DOCTOR_REVIEW => "DOCTOR_REVIEW"
  | .APPROVED => "APPROVED"
  | .LOCKED => "LOCKED"
  | .PUBLISHED => "PUBLISHED"
  | .ARCHIVED => "ARCHIVED"
  | .REJECTED => "REJECTED"

/-- String form of a `ScriptAction` (used in audit action names and errors). -/
def scriptActionName : ScriptAction → String
  | .SUBMIT => "SUBMIT"
  | .APPROVE => "APPROVE"
  | .REJECT => "REJECT"
  | .LOCK => "LOCK"
  | .UNLOCK => "UNLOCK"

/-- String form of a `VideoAction`. -/
def videoActionName : VideoAction → String
  | .SUBMIT => "SUBMIT"
  | .APPROVE => "APPROVE"
  | .REJECT => "REJECT"
  | .LOCK => "LOCK"
  | .PUBLISH => "PUBLISH"
  | .UNLOCK => "UNLOCK"
  | .ARCHIVE => "ARCHIVE"

/-- `TransitionRule` interface of `src/config/constants.ts`, specialised per
status type. -/
structure TransitionRule (σ : Type) where
  nextState : σ
  requiredRoles : List UserRole
deriving DecidableEq, Repr

/-- `SCRIPT_TRANSITIONS` of `src/config/constants.ts`: the stage/action pairs
present in the nested record; pairs absent from the record are `none`. -/
def SCRIPT_TRANSITIONS : ScriptStatus → ScriptAction → Option (TransitionRule ScriptStatus)
  | .DRAFT, .SUBMIT =>
      some { nextState := .MEDICAL_REVIEW, requiredRoles := [.AGENCY_POC] }
  | .MEDICAL_REVIEW, .APPROVE =>
      some { nextState := .BRAND_REVIEW, requiredRoles := [.MEDICAL_REVIEWER, .SUPER_ADMIN] }
  | .MEDICAL_REVIEW, .REJECT =>
      some { nextState := .DRAFT, requiredRoles := [.MEDICAL_REVIEWER, .SUPER_ADMIN] }
  | .BRAND_REVIEW, .APPROVE =>
      some { nextState := .DOCTOR_REVIEW, requiredRoles := [.BRAND_REVIEWER, .SUPER_ADMIN] }
  | .BRAND_REVIEW, .REJECT =>
      some { nextState := .MEDICAL_REVIEW, requiredRoles := [.BRAND_REVIEWER, .SUPER_ADMIN] }
  | .DOCTOR_REVIEW, .APPROVE =>
      some { nextState := .APPROVED, requiredRoles := [.DOCTOR_CREATOR, .SUPER_ADMIN] }
  | .DOCTOR_REVIEW, .REJECT =>
      some { nextState := .BRAND_REVIEW, requiredRoles := [.DOCTOR_CREATOR, .SUPER_ADMIN] }
  | .APPROVED, .LOCK =>
      some { nextState := .LOCKED, requiredRoles := [.CONTENT_APPROVER, .SUPER_ADMIN] }
  | .LOCKED, .UNLOCK =>
      some { nextState := .APPROVED, requiredRoles := [.SUPER_ADMIN] }
  | .REJECTED, .SUBMIT =>
      some { nextState := .MEDICAL_REVIEW, requiredRoles := [.AGENCY_POC] }
  | _, _ => none

/-- `VIDEO_TRANSITIONS` of `src/config/constants.ts`. -/
def VIDEO_TRANSITIONS : VideoStatus → VideoAction → Option (TransitionRule VideoStatus)
  | .DRAFT, .SUBMIT =>
      some { nextState := .BRAND_REVIEW, requiredRoles := [.AGENCY_POC] }
  | .BRAND_REVIEW, .APPROVE =>
      some { nextState := .MEDICAL_REVIEW, requiredRoles := [.BRAND_REVIEWER, .SUPER_ADMIN] }
  | .BRAND_REVIEW, .REJECT =>
      some { nextState := .DRAFT, requiredRoles := [.BRAND_REVIEWER, .SUPER_ADMIN] }
  | .MEDICAL_REVIEW, .APPROVE =>
      some { nextState := .DOCTOR_REVIEW, requiredRoles := [.MEDICAL_REVIEWER, .SUPER_ADMIN] }
  | .MEDICAL_REVIEW, .REJECT =>
      some { nextState := .BRAND_REVIEW, requiredRoles := [.MEDICAL_REVIEWER, .SUPER_ADMIN] }
  | .DOCTOR_REVIEW, .APPROVE =>
      some { nextState := .APPROVED, requiredRoles := [.DOCTOR_CREATOR, .SUPER_ADMIN] }
  | .DOCTOR_REVIEW, .REJECT =>
      some { nextState := .MEDICAL_REVIEW, requiredRoles := [.DOCTOR_CREATOR, .SUPER_ADMIN] }
  | .APPROVED, .LOCK =>
      some { nextState := .LOCKED, requiredRoles := [.CONTENT_APPROVER, .SUPER_ADMIN] }
  | .LOCKED, .PUBLISH =>
      some { nextState := .PUBLISHED, requiredRoles := [.PUBLISHER, .SUPER_ADMIN] }
  | .LOCKED, .UNLOCK =>
      some { nextState := .APPROVED, requiredRoles := [.SUPER_ADMIN] }
  | .PUBLISHED, .ARCHIVE =>
      some { nextState := .ARCHIVED, requiredRoles := [.SUPER_ADMIN, .CONTENT_APPROVER] }
  | .REJECTED, .SUBMIT =>
      some { nextState := .BRAND_REVIEW, requiredRoles := [.AGENCY_POC] }
  | _, _ => none

/-- `LOCK_PERMISSIONS` of `src/config/constants.ts`. -/
def LOCK_PERMISSIONS_CAN_LOCK_SCRIPT : List UserRole := [.CONTENT_APPROVER, .SUPER_ADMIN]

def LOCK_PERMISSIONS_CAN_LOCK_VIDEO : List UserRole := [.CONTENT_APPROVER, .SUPER_ADMIN]

def LOCK_PERMISSIONS_CAN_UNLOCK : List UserRole := [.SUPER_ADMIN]

/-- Shape of the value returned by `isValidScriptTransition` /
`isValidVideoTransition`: `{ valid: boolean; nextState?; error? }`. -/
structure TransitionValidation (σ : Type) where
  valid : Bool
  nextState : Option σ
  error : Option String
deriving DecidableEq, Repr

/-- Error string of the absent-pair branch:
`Action X not allowed from state: S`. -/
def scriptInvalidMsg (currentStatus : ScriptStatus) (action : ScriptAction) : String :=
  "Action " ++ scriptActionName action ++ " not allowed from state: "
    ++ scriptStatusName currentStatus

/-- Error string of the role-rejection branch:
`Role R cannot perform X on S. Required: R1, R2`. -/
def scriptForbiddenMsg (currentStatus : ScriptStatus) (action : ScriptAction)
    (userRole : UserRole) (requiredRoles : List UserRole) : String :=
  "Role " ++ roleName userRole ++ " cannot perform " ++ scriptActionName action
    ++ " on " ++ scriptStatusName currentStatus ++ ". Required: "
    ++ String.intercalate ", " (requiredRoles.map roleName)

def videoInvalidMsg (currentStatus : VideoStatus) (action : VideoAction) : String :=
  "Action " ++ videoActionName action ++ " not allowed from state: "
    ++ videoStatusName currentStatus

def videoForbiddenMsg (currentStatus : VideoStatus) (action : VideoAction)
    (userRole : UserRole) (requiredRoles : List UserRole) : String :=
  "Role " ++ roleName userRole ++ " cannot perform " ++ videoActionName action
    ++ " on " ++ videoStatusName currentStatus ++ ". Required: "
    ++ String.intercalate ", " (requiredRoles.map roleName)

/-- `isValidScriptTransition` of `src/config/constants.ts`.  The source's
first guard (`stateTransitions` undefined) is unreachable because the outer
`Record` is total over `ScriptStatus`; the absent-action branch produces the
`Action ... not allowed` error.  The source returns `forbidden` when
`requiredRoles.includes(userRole)` is false and otherwise falls through to the
valid result. -/
def isValidScriptTransition (currentStatus : ScriptStatus) (action : ScriptAction)
    (userRole : UserRole) : TransitionValidation ScriptStatus :=
  match SCRIPT_TRANSITIONS currentStatus action with
  | none =>
      { valid := false, nextState := none,
        error := some (scriptInvalidMsg currentStatus action) }
  | some transition =>
      if userRole ∈ transition.requiredRoles then
        { valid := true, nextState := some transition.nextState, error := none }
      else
        { valid := false, nextState := none,
          error := some (scriptForbiddenMsg currentStatus action userRole
            transition.requiredRoles) }

/-- `isValidVideoTransition` of `src/config/constants.ts`. -/
def isValidVideoTransition (currentStatus : VideoStatus) (action : VideoAction)
    (userRole : UserRole) : TransitionValidation VideoStatus :=
  match VIDEO_TRANSITIONS currentStatus action with
  | none =>
      { valid := false, nextState := none,
        error := some (videoInvalidMsg currentStatus action) }
  | some transition =>
      if userRole ∈ transition.requiredRoles then
        { valid := true, nextState := some transition.nextState, error := none }
      else
        { valid := false, nextState := none,
          error := some (videoForbiddenMsg currentStatus action userRole
            transition.requiredRoles) }

/-! ## Data model

Rows of the backing store, with the fields the workflow engine reads or
writes.  `Date` columns are abstract `Nat` timestamps.  Floating-point
analytics columns (`avgWatchTime`, `ctr`, hook rates) default to 0 like the
integer ones and are elided. -/

/-- A `scripts` row (workflow-relevant fields). -/
structure Script where
  id : String
  topicId : String
  status : ScriptStatus
  assignedReviewerId : Option String
  assignedAt : Option Nat
  lockedById : Option String
  lockedAt : Option Nat
deriving DecidableEq, Repr

/-- A `videos` row (workflow-relevant fields). -/
structure Video where
  id : String
  topicId : String
  status : VideoStatus
  assignedReviewerId : Option String
  assignedAt : Option Nat
  lockedById : Option String
  lockedAt : Option Nat
  publishedById : Option String
  publishedAt : Option Nat
  deepLink : Option String
deriving DecidableEq, Repr

/-- A `users` row (only the name fields the claim error message reads). -/
structure User where
  id : String
  firstName : String
  lastName : String
deriving DecidableEq, Repr

/-- A `topics` row (only the status the publish flow advances). -/
structure Topic where
  id : String
  status : TopicStatus
deriving DecidableEq, Repr

/-- A `script_reviews` row as inserted by `transitionScript`. -/
structure ScriptReview where
  scriptId : String
  reviewerId : String
  reviewerType : UserRole
  decision : ReviewDecision
  comments : Option String
  reviewedAt : Nat
deriving DecidableEq, Repr

/-- A `video_reviews` row as inserted by `transitionVideo`. -/
structure VideoReview where
  videoId : String
  reviewerId : String
  reviewerType : UserRole
  decision : ReviewDecision
  comments : Option String
  reviewedAt : Nat
deriving DecidableEq, Repr

/-- The `oldValue`/`newValue` JSON object stored on an audit row.  Only the
keys the source ever writes appear; an outer `none` means the JSON object
carries no such key at all (e.g. claim/release snapshots carry no `status`
key). -/
structure AuditSnapshot where
  status : Option String := none
  assignedReviewerId : Option (Option String) := none
  lockedById : Option (Option String) := none
deriving DecidableEq, Repr

/-- An `audit_logs` row (ip address / user agent elided: the engine only
copies them through from the request). -/
structure AuditLogEntry where
  userId : String
  action : String
  entityType : String
  entityId : String
  oldValue : AuditSnapshot
  newValue : AuditSnapshot
deriving DecidableEq, Repr

/-- A `video_analytics` row; every counter column defaults to 0, so the
upsert's bare `create: { videoId }` produces a zero-initialized record. -/
structure VideoAnalytics where
  videoId : String
  views : Nat := 0
  uniqueViews : Nat := 0
  quizStarted : Nat := 0
  quizCompleted : Nat := 0
  consultClicked : Nat := 0
  consultCompleted : Nat := 0
deriving DecidableEq, Repr

/-- The backing store: the tables the workflow engine touches.  Review and
audit tables are append-only. -/
structure Db where
  scripts : List Script
  videos : List Video
  users : List User
  topics : List Topic
  scriptReviews : List ScriptReview
  videoReviews : List VideoReview
  videoAnalytics : List VideoAnalytics
  auditLogs : List AuditLogEntry
deriving DecidableEq, Repr

/-- `prisma.script.findUnique({ where: { id } })`. -/
def findScript (db : Db) (scriptId : String) : Option Script :=
  db.scripts.find? (fun s => s.id == scriptId)

/-- `prisma.video.findUnique({ where: { id } })`. -/
def findVideo (db : Db) (videoId : String) : Option Video :=
  db.videos.find? (fun v => v.id == videoId)

/-- Resolution of the `assignedReviewer` relation included by the claim
queries. -/
def findUser (db : Db) (userId : String) : Option User :=
  db.users.find? (fun u => u.id == userId)

/-- `prisma.topic.findUnique`-style row lookup. -/
def findTopic (db : Db) (topicId : String) : Option Topic :=
  db.topics.find? (fun t => t.id == topicId)

/-- `prisma.videoAnalytics.findUnique({ where: { videoId } })`. -/
def findVideoAnalytics (db : Db) (videoId : String) : Option VideoAnalytics :=
  db.videoAnalytics.find? (fun a => a.videoId == videoId)

/-- `prisma.script.update({ where: { id }, data })`: the data is applied to
the row whose unique id matches. -/
def updateScriptRows (scriptId : String) (f : Script → Script)
    (rows : List Script) : List Script :=
  rows.map (fun s => if s.id == scriptId then f s else s)

/-- `prisma.video.update({ where: { id }, data })`. -/
def updateVideoRows (videoId : String) (f : Video → Video)
    (rows : List Video) : List Video :=
  rows.map (fun v => if v.id == videoId then f v else v)

/-- `prisma.topic.update({ where: { id }, data })`. -/
def updateTopicRows (topicId : String) (f : Topic → Topic)
    (rows : List Topic) : List Topic :=
  rows.map (fun t => if t.id == topicId then f t else t)

/-- The `TransitionContext` interface of the workflow service (ip address and
user agent elided). -/
structure TransitionContext where
  userId : String
  userRole : UserRole
  comments : Option String := none
deriving DecidableEq, Repr

/-- The `TransitionResult` interface `{ success, data?, error? }`, with the
returned row typed. -/
structure OpResult (α : Type) where
  success : Bool
  data : Option α := none
  error : Option String := none
deriving DecidableEq, Repr

/-! ## Workflow service — script operations -/

/-- The `data` object of the status update inside `transitionScript`'s
transaction: new status, claim pair unconditionally nulled. -/
def scriptTransitionUpdate (nextState : ScriptStatus) (s : Script) : Script :=
  { s with status := nextState, assignedReviewerId := none, assignedAt := none }

/-- `WorkflowService.transitionScript`.  The `$transaction` body (status
update, conditional `scriptReview.create`, `auditLog.create`) is modelled as
an `Option Db`-valued computation: `none` aborts and rolls the store back to
its pre-call state, mirroring Prisma's transaction semantics.
`failReviewInsert` injects a failure into the review-record insertion (the
only fallible step a claim exercises). -/
def transitionScript (scriptId : String) (action : ScriptAction)
    (ctx : TransitionContext) (now : Nat) (failReviewInsert : Bool)
    (db : Db) : OpResult Script × Db :=
  match findScript db scriptId with
  | none => ({ success := false, error := some "Script not found" }, db)
  | some script =>
    let validation := isValidScriptTransition script.status action ctx.userRole
    if validation.valid then
      match validation.nextState with
      | none =>
          -- unreachable: a valid validation always carries a next state
          ({ success := false, error := some "Unknown validation error" }, db)
      | some nextState =>
        let currentState := script.status
        let txBody : Option Db :=
          let db1 := { db with
            scripts := updateScriptRows scriptId
              (scriptTransitionUpdate nextState) db.scripts }
          let db2 : Option Db :=
            if action = .APPROVE ∨ action = .REJECT then
              if failReviewInsert then none
              else some { db1 with scriptReviews := db1.scriptReviews ++ [{
                scriptId := scriptId
                reviewerId := ctx.userId
                reviewerType := ctx.userRole
                decision := if action = .APPROVE then .APPROVED else .REJECTED
                comments := ctx.comments
                reviewedAt := now }] }
            else some db1
          match db2 with
          | none => none
          | some db3 => some { db3 with auditLogs := db3.auditLogs ++ [{
              userId := ctx.userId
              action := scriptActionName action ++ "_SCRIPT"
              entityType := "SCRIPT"
              entityId := scriptId
              oldValue := { status := some (scriptStatusName currentState) }
              newValue := { status := some (scriptStatusName nextState) } }] }
        match txBody with
        | none =>
            ({ success := false,
               error := some "Forced failure: review record insertion" }, db)
        | some dbFinal =>
            ({ success := true,
               data := some (scriptTransitionUpdate nextState script) }, dbFinal)
    else
      ({ success := false, error := validation.error }, db)

/-- `WorkflowService.lockScript`: permission check, then state precondition,
then the transactional status update + audit row. -/
def lockScript (scriptId : String) (ctx : TransitionContext) (now : Nat)
    (db : Db) : OpResult Script × Db :=
  if ctx.userRole ∈ LOCK_PERMISSIONS_CAN_LOCK_SCRIPT then
    match findScript db scriptId with
    | none => ({ success := false, error := some "Script not found" }, db)
    | some script =>
      if script.status = .APPROVED then
        let upd := fun (s : Script) =>
          { s with status := ScriptStatus.LOCKED,
                   lockedById := some ctx.userId, lockedAt := some now }
        let db1 := { db with
          scripts := updateScriptRows scriptId upd db.scripts }
        let db2 := { db1 with auditLogs := db1.auditLogs ++ [{
          userId := ctx.userId
          action := "LOCK_SCRIPT"
          entityType := "SCRIPT"
          entityId := scriptId
          oldValue := { status := some "APPROVED" }
          newValue := { status := some "LOCKED",
                        lockedById := some (some ctx.userId) } }] }
        ({ success := true, data := some (upd script) }, db2)
      else
        ({ success := false,
           error := some ("Script must be in APPROVED state to lock. Current: "
             ++ scriptStatusName script.status
             ++ ". Doctor must approve first.") }, db)
  else
    ({ success := false,
       error := some "Only Content Approver or Super Admin can lock scripts" }, db)

/-- `WorkflowService.unlockScript`: super-admin gate, LOCKED precondition,
revert to APPROVED with the lock pair cleared, plus an
`EMERGENCY_UNLOCK_SCRIPT` audit row. -/
def unlockScript (scriptId : String) (ctx : TransitionContext)
    (db : Db) : OpResult Script × Db :=
  if ctx.userRole ∈ LOCK_PERMISSIONS_CAN_UNLOCK then
    match findScript db scriptId with
    | none => ({ success := false, error := some "Script not found" }, db)
    | some script =>
      if script.status = .LOCKED then
        let upd := fun (s : Script) =>
          { s with status := ScriptStatus.APPROVED,
                   lockedById := none, lockedAt := none }
        let db1 := { db with
          scripts := updateScriptRows scriptId upd db.scripts }
        let db2 := { db1 with auditLogs := db1.auditLogs ++ [{
          userId := ctx.userId
          action := "EMERGENCY_UNLOCK_SCRIPT"
          entityType := "SCRIPT"
          entityId := scriptId
          oldValue := { status := some "LOCKED" }
          newValue := { status := some "APPROVED" } }] }
        ({ success := true, data := some (upd script) }, db2)
      else
        ({ success := false,
           error := some ("Script is not locked. Current status: "
             ++ scriptStatusName script.status) }, db)
  else
    ({ success := false,
       error := some "Only Super Admin can unlock scripts" }, db)

/-- `WorkflowService.getRolesForScriptStage`. -/
def getRolesForScriptStage : ScriptStatus → List UserRole
  | .MEDICAL_REVIEW => [.MEDICAL_REVIEWER, .SUPER_ADMIN]
  | .BRAND_REVIEW => [.BRAND_REVIEWER, .SUPER_ADMIN]
  | .DOCTOR_REVIEW => [.DOCTOR_CREATOR, .SUPER_ADMIN]
  | .APPROVED => [.CONTENT_APPROVER, .SUPER_ADMIN]
  | _ => [.SUPER_ADMIN]

/-- `WorkflowService.getRolesForVideoStage`. -/
def getRolesForVideoStage : VideoStatus → List UserRole
  | .BRAND_REVIEW => [.BRAND_REVIEWER, .SUPER_ADMIN]
  | .MEDICAL_REVIEW => [.MEDICAL_REVIEWER, .SUPER_ADMIN]
  | .DOCTOR_REVIEW => [.DOCTOR_CREATOR, .SUPER_ADMIN]
  | .APPROVED => [.CONTENT_APPROVER, .SUPER_ADMIN]
  | .LOCKED => [.PUBLISHER, .SUPER_ADMIN]
  | _ => [.SUPER_ADMIN]

/-! ## Claim / release subsystem

`claimScript` / `claimVideo` are read-then-write: a `findUnique` read phase
that decides the outcome, followed — on the proceed path — by an
**unconditional** `update` of the claim pair and an audit append (neither
inside a transaction, and the update's `where` clause filters on `id` only,
not on the claim field still being null).  The phases are modelled
separately so that interleavings of two racing calls can be stated; the
sequential operation is their composition. -/

/-- Outcome of the read phase of a claim call. -/
inductive ClaimDecision where
  | notFound
  | alreadyClaimed (message : String)
  | idempotent
  | forbiddenStage (message : String)
  | proceed
deriving DecidableEq, Repr

/-- The `Script is already being reviewed by ...` message: the holder's name
resolved through the `assignedReviewer` relation (an absent user renders as
JavaScript `undefined`). -/
def claimScriptTakenMsg (db : Db) (holderId : String) : String :=
  let firstName := match findUser db holderId with
    | some u => u.firstName
    | none => "undefined"
  let lastName := match findUser db holderId with
    | some u => u.lastName
    | none => "undefined"
  "Script is already being reviewed by " ++ firstName ++ " " ++ lastName
    ++ ". Please select another script."

/-- Read phase of `WorkflowService.claimScript`: claimed-by-other and
claimed-by-self are checked before the stage-role permission check. -/
def claimScriptDecision (scriptId : String) (ctx : TransitionContext)
    (db : Db) : ClaimDecision :=
  match findScript db scriptId with
  | none => .notFound
  | some script =>
    match script.assignedReviewerId with
    | some holderId =>
      if holderId ≠ ctx.userId then
        .alreadyClaimed (claimScriptTakenMsg db holderId)
      else
        .idempotent
    | none =>
      if ctx.userRole ∈ getRolesForScriptStage script.status then
        .proceed
      else
        .forbiddenStage ("Your role (" ++ roleName ctx.userRole
          ++ ") cannot review scripts in " ++ scriptStatusName script.status
          ++ " status")

/-- Write phase of `claimScript`: `prisma.script.update({ where: { id },
data: { assignedReviewerId, assignedAt } })` — unconditional, no guard on the
claim field still being null at write time. -/
def claimScriptWrite (scriptId : String) (userId : String) (now : Nat)
    (db : Db) : Db :=
  let upd := fun (s : Script) =>
    { s with assignedReviewerId := some userId, assignedAt := some now }
  { db with scripts := updateScriptRows scriptId upd db.scripts }

/-- The `CLAIM_SCRIPT` audit append that follows the write (outside any
transaction). -/
def claimScriptAudit (scriptId : String) (userId : String) (db : Db) : Db :=
  { db with auditLogs := db.auditLogs ++ [{
      userId := userId
      action := "CLAIM_SCRIPT"
      entityType := "SCRIPT"
      entityId := scriptId
      oldValue := { assignedReviewerId := some none }
      newValue := { assignedReviewerId := some (some userId) } }] }

/-- `WorkflowService.claimScript` run to completion without interleaving:
the read phase followed, on the proceed path, by the unconditional write and
the audit append. -/
def claimScript (scriptId : String) (ctx : TransitionContext) (now : Nat)
    (db : Db) : OpResult Script × Db :=
  match claimScriptDecision scriptId ctx db with
  | .notFound => ({ success := false, error := some "Script not found" }, db)
  | .alreadyClaimed msg => ({ success := false, error := some msg }, db)
  | .idempotent => ({ success := true, data := findScript db scriptId }, db)
  | .forbiddenStage msg => ({ success := false, error := some msg }, db)
  | .proceed =>
    let db1 := claimScriptWrite scriptId ctx.userId now db
    ({ success := true, data := findScript db1 scriptId },
      claimScriptAudit scriptId ctx.userId db1)

/-- One racing schedule of two `claimScript` calls on the same item: both
reads happen before either write (each decision is computed against the
initial store), then the proceed-path writes and audit appends run in call
order.  Returns both decisions and the final store. -/
def claimScriptRace (scriptId : String) (ctxA ctxB : TransitionContext)
    (nowA nowB : Nat) (db : Db) : ClaimDecision × ClaimDecision × Db :=
  let decA := claimScriptDecision scriptId ctxA db
  let decB := claimScriptDecision scriptId ctxB db
  let db1 := if decA = .proceed then
      claimScriptAudit scriptId ctxA.userId
        (claimScriptWrite scriptId ctxA.userId nowA db)
    else db
  let db2 := if decB = .proceed then
      claimScriptAudit scriptId ctxB.userId
        (claimScriptWrite scriptId ctxB.userId nowB db1)
    else db1
  (decA, decB, db2)

/-- `WorkflowService.releaseScript`. -/
def releaseScript (scriptId : String) (ctx : TransitionContext)
    (db : Db) : OpResult Script × Db :=
  match findScript db scriptId with
  | none => ({ success := false, error := some "Script not found" }, db)
  | some script =>
    if script.assignedReviewerId ≠ some ctx.userId
        ∧ ctx.userRole ≠ .SUPER_ADMIN then
      ({ success := false,
         error := some "Only the assigned reviewer or Super Admin can release this script" },
        db)
    else
      let previousReviewerId := script.assignedReviewerId
      let upd := fun (s : Script) =>
        { s with assignedReviewerId := none, assignedAt := none }
      let db1 := { db with
        scripts := updateScriptRows scriptId upd db.scripts }
      let db2 := { db1 with auditLogs := db1.auditLogs ++ [{
        userId := ctx.userId
        action := if ctx.userRole = .SUPER_ADMIN
            ∧ previousReviewerId ≠ some ctx.userId then
            "FORCE_RELEASE_SCRIPT"
          else
            "RELEASE_SCRIPT"
        entityType := "SCRIPT"
        entityId := scriptId
        oldValue := { assignedReviewerId := some previousReviewerId }
        newValue := { assignedReviewerId := some none } }] }
      ({ success := true, data := some (upd script) }, db2)

/-! ## Workflow service — video operations -/

/-- The deep link computed on publish: a pure function of the video id. -/
def videoDeepLink (videoId : String) : String :=
  "practo://hub/video/" ++ videoId

/-- The `updateData` object built inside `transitionVideo`'s transaction:
new status with the claim pair nulled, and for PUBLISH additionally
`publishedAt`, `publishedById` and the deep link. -/
def videoTransitionUpdate (action : VideoAction) (nextState : VideoStatus)
    (userId : String) (videoId : String) (now : Nat) (v : Video) : Video :=
  let base := { v with status := nextState,
                       assignedReviewerId := none, assignedAt := none }
  if action = .PUBLISH then
    { base with publishedAt := some now, publishedById := some userId,
                deepLink := some (videoDeepLink videoId) }
  else
    base

/-- `prisma.videoAnalytics.upsert({ where: { videoId }, create: { videoId },
update: {} })`: a no-op when a row for the video exists, otherwise a
zero-initialized row is appended. -/
def upsertVideoAnalytics (videoId : String)
    (rows : List VideoAnalytics) : List VideoAnalytics :=
  if (rows.find? (fun a => a.videoId == videoId)).isSome then
    rows
  else
    rows ++ [{ videoId := videoId }]

/-- `WorkflowService.transitionVideo`: like `transitionScript`, with the
PUBLISH extras (publish stamp fields in the update data, analytics upsert as
the transaction's last step). -/
def transitionVideo (videoId : String) (action : VideoAction)
    (ctx : TransitionContext) (now : Nat) (failReviewInsert : Bool)
    (db : Db) : OpResult Video × Db :=
  match findVideo db videoId with
  | none => ({ success := false, error := some "Video not found" }, db)
  | some video =>
    let validation := isValidVideoTransition video.status action ctx.userRole
    if validation.valid then
      match validation.nextState with
      | none =>
          -- unreachable: a valid validation always carries a next state
          ({ success := false, error := some "Unknown validation error" }, db)
      | some nextState =>
        let currentState := video.status
        let upd := videoTransitionUpdate action nextState ctx.userId videoId now
        let txBody : Option Db :=
          let db1 := { db with
            videos := updateVideoRows videoId upd db.videos }
          let db2 : Option Db :=
            if action = .APPROVE ∨ action = .REJECT then
              if failReviewInsert then none
              else some { db1 with videoReviews := db1.videoReviews ++ [{
                videoId := videoId
                reviewerId := ctx.userId
                reviewerType := ctx.userRole
                decision := if action = .APPROVE then .APPROVED else .REJECTED
                comments := ctx.comments
                reviewedAt := now }] }
            else some db1
          match db2 with
          | none => none
          | some db3 =>
            let db4 := { db3 with auditLogs := db3.auditLogs ++ [{
              userId := ctx.userId
              action := videoActionName action ++ "_VIDEO"
              entityType := "VIDEO"
              entityId := videoId
              oldValue := { status := some (videoStatusName currentState) }
              newValue := { status := some (videoStatusName nextState) } }] }
            if action = .PUBLISH then
              some { db4 with
                videoAnalytics := upsertVideoAnalytics videoId db4.videoAnalytics }
            else
              some db4
        match txBody with
        | none =>
            ({ success := false,
               error := some "Forced failure: review record insertion" }, db)
        | some dbFinal =>
            ({ success := true, data := some (upd video) }, dbFinal)
    else
      ({ success := false, error := validation.error }, db)

/-- `WorkflowService.lockVideo`. -/
def lockVideo (videoId : String) (ctx : TransitionContext) (now : Nat)
    (db : Db) : OpResult Video × Db :=
  if ctx.userRole ∈ LOCK_PERMISSIONS_CAN_LOCK_VIDEO then
    match findVideo db videoId with
    | none => ({ success := false, error := some "Video not found" }, db)
    | some video =>
      if video.status = .APPROVED then
        let upd := fun (v : Video) =>
          { v with status := VideoStatus.LOCKED,
                   lockedById := some ctx.userId, lockedAt := some now }
        let db1 := { db with
          videos := updateVideoRows videoId upd db.videos }
        let db2 := { db1 with auditLogs := db1.auditLogs ++ [{
          userId := ctx.userId
          action := "LOCK_VIDEO"
          entityType := "VIDEO"
          entityId := videoId
          oldValue := { status := some "APPROVED" }
          newValue := { status := some "LOCKED",
                        lockedById := some (some ctx.userId) } }] }
        ({ success := true, data := some (upd video) }, db2)
      else
        ({ success := false,
           error := some ("Video must be in APPROVED state to lock. Current: "
             ++ videoStatusName video.status
             ++ ". Doctor must approve first.") }, db)
  else
    ({ success := false,
       error := some "Only Content Approver or Super Admin can lock videos" }, db)

/-- `WorkflowService.unlockVideo`. -/
def unlockVideo (videoId : String) (ctx : TransitionContext)
    (db : Db) : OpResult Video × Db :=
  if ctx.userRole ∈ LOCK_PERMISSIONS_CAN_UNLOCK then
    match findVideo db videoId with
    | none => ({ success := false, error := some "Video not found" }, db)
    | some video =>
      if video.status = .LOCKED then
        let upd := fun (v : Video) =>
          { v with status := VideoStatus.APPROVED,
                   lockedById := none, lockedAt := none }
        let db1 := { db with
          videos := updateVideoRows videoId upd db.videos }
        let db2 := { db1 with auditLogs := db1.auditLogs ++ [{
          userId := ctx.userId
          action := "EMERGENCY_UNLOCK_VIDEO"
          entityType := "VIDEO"
          entityId := videoId
          oldValue := { status := some "LOCKED" }
          newValue := { status := some "APPROVED" } }] }
        ({ success := true, data := some (upd video) }, db2)
      else
        ({ success := false,
           error := some ("Video is not locked. Current status: "
             ++ videoStatusName video.status) }, db)
  else
    ({ success := false,
       error := some "Only Super Admin can unlock videos" }, db)

/-- The `Video is already being reviewed by ...` message. -/
def claimVideoTakenMsg (db : Db) (holderId : String) : String :=
  let firstName := match findUser db holderId with
    | some u => u.firstName
    | none => "undefined"
  let lastName := match findUser db holderId with
    | some u => u.lastName
    | none => "undefined"
  "Video is already being reviewed by " ++ firstName ++ " " ++ lastName
    ++ ". Please select another video."

/-- Read phase of `WorkflowService.claimVideo`. -/
def claimVideoDecision (videoId : String) (ctx : TransitionContext)
    (db : Db) : ClaimDecision :=
  match findVideo db videoId with
  | none => .notFound
  | some video =>
    match video.assignedReviewerId with
    | some holderId =>
      if holderId ≠ ctx.userId then
        .alreadyClaimed (claimVideoTakenMsg db holderId)
      else
        .idempotent
    | none =>
      if ctx.userRole ∈ getRolesForVideoStage video.status then
        .proceed
      else
        .forbiddenStage ("Your role (" ++ roleName ctx.userRole
          ++ ") cannot review videos in " ++ videoStatusName video.status
          ++ " status")

/-- Write phase of `claimVideo`: the unconditional claim-pair update. -/
def claimVideoWrite (videoId : String) (userId : String) (now : Nat)
    (db : Db) : Db :=
  let upd := fun (v : Video) =>
    { v with assignedReviewerId := some userId, assignedAt := some now }
  { db with videos := updateVideoRows videoId upd db.videos }

/-- The `CLAIM_VIDEO` audit append. -/
def claimVideoAudit (videoId : String) (userId : String) (db : Db) : Db :=
  { db with auditLogs := db.auditLogs ++ [{
      userId := userId
      action := "CLAIM_VIDEO"
      entityType := "VIDEO"
      entityId := videoId
      oldValue := { assignedReviewerId := some none }
      newValue := { assignedReviewerId := some (some userId) } }] }

/-- `WorkflowService.claimVideo` run to completion without interleaving. -/
def claimVideo (videoId : String) (ctx : TransitionContext) (now : Nat)
    (db : Db) : OpResult Video × Db :=
  match claimVideoDecision videoId ctx db with
  | .notFound => ({ success := false, error := some "Video not found" }, db)
  | .alreadyClaimed msg => ({ success := false, error := some msg }, db)
  | .idempotent => ({ success := true, data := findVideo db videoId }, db)
  | .forbiddenStage msg => ({ success := false, error := some msg }, db)
  | .proceed =>
    let db1 := claimVideoWrite videoId ctx.userId now db
    ({ success := true, data := findVideo db1 videoId },
      claimVideoAudit videoId ctx.userId db1)

/-- `WorkflowService.releaseVideo`. -/
def releaseVideo (videoId : String) (ctx : TransitionContext)
    (db : Db) : OpResult Video × Db :=
  match findVideo db videoId with
  | none => ({ success := false, error := some "Video not found" }, db)
  | some video =>
    if video.assignedReviewerId ≠ some ctx.userId
        ∧ ctx.userRole ≠ .SUPER_ADMIN then
      ({ success := false,
         error := some "Only the assigned reviewer or Super Admin can release this video" },
        db)
    else
      let previousReviewerId := video.assignedReviewerId
      let upd := fun (v : Video) =>
        { v with assignedReviewerId := none, assignedAt := none }
      let db1 := { db with
        videos := updateVideoRows videoId upd db.videos }
      let db2 := { db1 with auditLogs := db1.auditLogs ++ [{
        userId := ctx.userId
        action := if ctx.userRole = .SUPER_ADMIN
            ∧ previousReviewerId ≠ some ctx.userId then
            "FORCE_RELEASE_VIDEO"
          else
            "RELEASE_VIDEO"
        entityType := "VIDEO"
        entityId := videoId
        oldValue := { assignedReviewerId := some previousReviewerId }
        newValue := { assignedReviewerId := some none } }] }
      ({ success := true, data := some (upd video) }, db2)

/-- `publishVideo` of `hub.routes.ts`: a PUBLISH transition through the
generic executor, then — only on success, outside the item's transaction —
the parent topic's status is advanced to COMPLETED.  On failure the route
throws and the store is untouched. -/
def publishVideo (videoId : String) (userId : String) (userRole : UserRole)
    (now : Nat) (db : Db) : OpResult Video × Db :=
  let r := transitionVideo videoId .PUBLISH
    { userId := userId, userRole := userRole } now false db
  match r.1.data, r.1.success with
  | some video, true =>
    let markCompleted := fun (t : Topic) => { t with status := TopicStatus.COMPLETED }
    let db1 := { r.2 with
      topics := updateTopicRows video.topicId markCompleted r.2.topics }
    ({ success := true, data := some video }, db1)
  | _, _ => (r.1, r.2)

/-! ## Derived state predicates -/

/-- The claim-lease pair invariant of the data model: `assignedReviewerId`
and `assignedAt` are both set or both null. -/
def claimPairOk (a : Option String) (b : Option Nat) : Prop :=
  a.isSome = b.isSome

/-- Store-wide claim-pair invariant over both item tables. -/
def dbClaimPairsOk (db : Db) : Prop :=
  (∀ s ∈ db.scripts, claimPairOk s.assignedReviewerId s.assignedAt)
    ∧ (∀ v ∈ db.videos, claimPairOk v.assignedReviewerId v.assignedAt)

/-! ## Concrete fixtures

Small concrete stores used to evaluate the operations at explicit inputs. -/

def userAlice : User := { id := "alice", firstName := "Alice", lastName := "Reviewer" }

def userBob : User := { id := "bob", firstName := "Bob", lastName := "Reviewer" }

/-- An unclaimed script sitting in medical review. -/
def script1 : Script :=
  { id := "s1", topicId := "t1", status := .MEDICAL_REVIEW,
    assignedReviewerId := none, assignedAt := none,
    lockedById := none, lockedAt := none }

/-- The same script claimed by alice. -/
def script1Alice : Script :=
  { script1 with assignedReviewerId := some "alice", assignedAt := some 1 }

/-- A locked script. -/
def script2 : Script :=
  { id := "s2", topicId := "t1", status := .LOCKED,
    assignedReviewerId := none, assignedAt := none,
    lockedById := some "carol", lockedAt := some 5 }

/-- A locked, unclaimed video ready to publish. -/
def video1 : Video :=
  { id := "v1", topicId := "t1", status := .LOCKED,
    assignedReviewerId := none, assignedAt := none,
    lockedById := some "carol", lockedAt := some 5,
    publishedById := none, publishedAt := none, deepLink := none }

def topic1 : Topic := { id := "t1", status := .IN_PROGRESS }

def ctxAlice : TransitionContext :=
  { userId := "alice", userRole := .MEDICAL_REVIEWER }

def ctxBob : TransitionContext :=
  { userId := "bob", userRole := .MEDICAL_REVIEWER }

def ctxCarol : TransitionContext :=
  { userId := "carol", userRole := .SUPER_ADMIN }

/-- Store with the unclaimed `script1`, the locked `script2`, and `video1`. -/
def db0 : Db :=
  { scripts := [script1, script2], videos := [video1],
    users := [userAlice, userBob], topics := [topic1],
    scriptReviews := [], videoReviews := [], videoAnalytics := [],
    auditLogs := [] }

/-- Store where alice already holds the claim on `script1`. -/
def dbAlice : Db := { db0 with scripts := [script1Alice, script2] }

/-- The review row inserted by a script APPROVE/REJECT. -/
def scriptReviewRow (scriptId : String) (a : ScriptAction)
    (ctx : TransitionContext) (now : Nat) : ScriptReview :=
  { scriptId := scriptId
    reviewerId := ctx.userId
    reviewerType := ctx.userRole
    decision := if a = .APPROVE then .APPROVED else .REJECTED
    comments := ctx.comments
    reviewedAt := now }

/-- The audit row written by a successful script transition. -/
def scriptTransitionAuditRow (scriptId : String) (a : ScriptAction)
    (ctx : TransitionContext) (currentState nextState : ScriptStatus) :
    AuditLogEntry :=
  { userId := ctx.userId
    action := scriptActionName a ++ "_SCRIPT"
    entityType := "SCRIPT"
    entityId := scriptId
    oldValue := { status := some (scriptStatusName currentState) }
    newValue := { status := some (scriptStatusName nextState) } }

/-- The review row inserted by a video APPROVE/REJECT. -/
def videoReviewRow (videoId : String) (a : VideoAction)
    (ctx : TransitionContext) (now : Nat) : VideoReview :=
  { videoId := videoId
    reviewerId := ctx.userId
    reviewerType := ctx.userRole
    decision := if a = .APPROVE then .APPROVED else .REJECTED
    comments := ctx.comments
    reviewedAt := now }

/-- The audit row written by a successful video transition. -/
def videoTransitionAuditRow (videoId : String) (a : VideoAction)
    (ctx : TransitionContext) (currentState nextState : VideoStatus) :
    AuditLogEntry :=
  { userId := ctx.userId
    action := videoActionName a ++ "_VIDEO"
    entityType := "VIDEO"
    entityId := videoId
    oldValue := { status := some (videoStatusName currentState) }
    newValue := { status := some (videoStatusName nextState) } }


/-- A context whose role is not permitted at any review stage. -/
def ctxAliceViewer : TransitionContext :=
  { userId := "alice", userRole := .VIEWER }

def ctxEveViewer : TransitionContext :=
  { userId := "eve", userRole := .VIEWER }

/-! ## General lemmas about row updates and the validator -/

theorem mem_update_of_mem {α : Type} (p : α → Bool) (f : α → α) {t : α}
    {rows : List α}
    (ht : t ∈ rows.map (fun s => if p s then f s else s)) :
    t ∈ rows ∨ ∃ s, s ∈ rows ∧ t = f s := by
  rcases List.mem_map.mp ht with ⟨s, hs, hst⟩
  by_cases hp : p s = true
  · right
    exact ⟨s, hs, by rw [← hst, if_pos hp]⟩
  · left
    rw [← hst, if_neg hp]
    exact hs

theorem find?_update {α : Type} (p : α → Bool) (f : α → α)
    (hf : ∀ s, p (f s) = p s) :
    ∀ rows : List α,
      (rows.map (fun s => if p s then f s else s)).find? p
        = (rows.find? p).map f := by
  intro rows
  induction rows with
  | nil => rfl
  | cons a t ih =>
    by_cases hp : p a = true
    · simp [List.find?, hp, hf]
    · simp [List.find?, hp, hf, ih]

theorem findScript_update (db : Db) (scriptId : String) (f : Script → Script)
    (hf : ∀ s, (f s).id = s.id) :
    (updateScriptRows scriptId f db.scripts).find? (fun s => s.id == scriptId)
      = (findScript db scriptId).map f := by
  unfold updateScriptRows findScript
  exact find?_update _ f (fun s => by simp [hf]) db.scripts

theorem findVideo_update (db : Db) (videoId : String) (f : Video → Video)
    (hf : ∀ v, (f v).id = v.id) :
    (updateVideoRows videoId f db.videos).find? (fun v => v.id == videoId)
      = (findVideo db videoId).map f := by
  unfold updateVideoRows findVideo
  exact find?_update _ f (fun v => by simp [hf]) db.videos

theorem findTopic_update (db : Db) (topicId : String) (f : Topic → Topic)
    (hf : ∀ t, (f t).id = t.id) :
    (updateTopicRows topicId f db.topics).find? (fun t => t.id == topicId)
      = (findTopic db topicId).map f := by
  unfold updateTopicRows findTopic
  exact find?_update _ f (fun t => by simp [hf]) db.topics

theorem isValidScriptTransition_valid (s : ScriptStatus) (a : ScriptAction)
    (r : UserRole)
    (h : (isValidScriptTransition s a r).valid = true) :
    ∃ rule, SCRIPT_TRANSITIONS s a = some rule ∧ r ∈ rule.requiredRoles
      ∧ (isValidScriptTransition s a r).nextState = some rule.nextState := by
  cases hsa : SCRIPT_TRANSITIONS s a with
  | none => simp [isValidScriptTransition, hsa] at h
  | some rule =>
    by_cases hr : r ∈ rule.requiredRoles
    · exact ⟨rule, rfl, hr, by simp [isValidScriptTransition, hsa, hr]⟩
    · simp [isValidScriptTransition, hsa, hr] at h

theorem isValidVideoTransition_valid (s : VideoStatus) (a : VideoAction)
    (r : UserRole)
    (h : (isValidVideoTransition s a r).valid = true) :
    ∃ rule, VIDEO_TRANSITIONS s a = some rule ∧ r ∈ rule.requiredRoles
      ∧ (isValidVideoTransition s a r).nextState = some rule.nextState := by
  cases hsa : VIDEO_TRANSITIONS s a with
  | none => simp [isValidVideoTransition, hsa] at h
  | some rule =>
    by_cases hr : r ∈ rule.requiredRoles
    · exact ⟨rule, rfl, hr, by simp [isValidVideoTransition, hsa, hr]⟩
    · simp [isValidVideoTransition, hsa, hr] at h

/-- The audit entry appended when alice successfully claims `script1`. -/
def claimAuditEntryAlice : AuditLogEntry :=
  { userId := "alice", action := "CLAIM_SCRIPT", entityType := "SCRIPT",
    entityId := "s1", oldValue := { assignedReviewerId := some none },
    newValue := { assignedReviewerId := some (some "alice") } }

/-! ## Characterization of the transactional executors -/

theorem transitionScript_valid_eq {scriptId : String} {a : ScriptAction}
    {ctx : TransitionContext} {now : Nat} {ff : Bool} {db : Db}
    {script : Script} {ns : ScriptStatus}
    (hfind : findScript db scriptId = some script)
    (hv : (isValidScriptTransition script.status a ctx.userRole).valid = true)
    (hns : (isValidScriptTransition script.status a ctx.userRole).nextState
      = some ns) :
    transitionScript scriptId a ctx now ff db =
      if a = .APPROVE ∨ a = .REJECT then
        if ff then
          ({ success := false,
             error := some "Forced failure: review record insertion" }, db)
        else
          ({ success := true, data := some (scriptTransitionUpdate ns script) },
            { db with
              scripts := updateScriptRows scriptId
                (scriptTransitionUpdate ns) db.scripts
              scriptReviews := db.scriptReviews
                ++ [scriptReviewRow scriptId a ctx now]
              auditLogs := db.auditLogs
                ++ [scriptTransitionAuditRow scriptId a ctx script.status ns] })
      else
        ({ success := true, data := some (scriptTransitionUpdate ns script) },
          { db with
            scripts := updateScriptRows scriptId
              (scriptTransitionUpdate ns) db.scripts
            auditLogs := db.auditLogs
              ++ [scriptTransitionAuditRow scriptId a ctx script.status ns] }) := by
  by_cases har : a = .APPROVE ∨ a = .REJECT <;> by_cases hff : ff = true <;>
    simp [transitionScript, scriptReviewRow, scriptTransitionAuditRow,
      hfind, hv, hns, har, hff]

theorem transitionScript_fail_rollback (scriptId : String) (a : ScriptAction)
    (ctx : TransitionContext) (now : Nat) (ff : Bool) (db : Db)
    (hfail : (transitionScript scriptId a ctx now ff db).1.success = false) :
    (transitionScript scriptId a ctx now ff db).2 = db := by
  cases hfind : findScript db scriptId with
  | none => simp [transitionScript, hfind]
  | some script =>
    by_cases hv : (isValidScriptTransition script.status a ctx.userRole).valid = true
    · cases hns : (isValidScriptTransition script.status a ctx.userRole).nextState with
      | none => simp [transitionScript, hfind, hv, hns]
      | some ns =>
        rw [transitionScript_valid_eq hfind hv hns] at hfail ⊢
        by_cases har : a = .APPROVE ∨ a = .REJECT <;> by_cases hff : ff = true <;>
          simp [har, hff] at hfail ⊢
    · simp [transitionScript, hfind, hv]

theorem transitionVideo_valid_eq {videoId : String} {a : VideoAction}
    {ctx : TransitionContext} {now : Nat} {ff : Bool} {db : Db}
    {video : Video} {ns : VideoStatus}
    (hfind : findVideo db videoId = some video)
    (hv : (isValidVideoTransition video.status a ctx.userRole).valid = true)
    (hns : (isValidVideoTransition video.status a ctx.userRole).nextState
      = some ns) :
    transitionVideo videoId a ctx now ff db =
      if a = .APPROVE ∨ a = .REJECT then
        if ff then
          ({ success := false,
             error := some "Forced failure: review record insertion" }, db)
        else
          ({ success := true,
             data := some (videoTransitionUpdate a ns ctx.userId videoId now video) },
            { db with
              videos := updateVideoRows videoId
                (videoTransitionUpdate a ns ctx.userId videoId now) db.videos
              videoReviews := db.videoReviews
                ++ [videoReviewRow videoId a ctx now]
              auditLogs := db.auditLogs
                ++ [videoTransitionAuditRow videoId a ctx video.status ns] })
      else if a = .PUBLISH then
        ({ success := true,
           data := some (videoTransitionUpdate a ns ctx.userId videoId now video) },
          { db with
            videos := updateVideoRows videoId
              (videoTransitionUpdate a ns ctx.userId videoId now) db.videos
            auditLogs := db.auditLogs
              ++ [videoTransitionAuditRow videoId a ctx video.status ns]
            videoAnalytics := upsertVideoAnalytics videoId db.videoAnalytics })
      else
        ({ success := true,
           data := some (videoTransitionUpdate a ns ctx.userId videoId now video) },
          { db with
            videos := updateVideoRows videoId
              (videoTransitionUpdate a ns ctx.userId videoId now) db.videos
            auditLogs := db.auditLogs
              ++ [videoTransitionAuditRow videoId a ctx video.status ns] }) := by
  by_cases har : a = .APPROVE ∨ a = .REJECT
  · rcases har with h | h <;> subst h <;> by_cases hff : ff = true <;>
      simp [transitionVideo, videoReviewRow, videoTransitionAuditRow,
        hfind, hv, hns, hff]
  · by_cases hp : a = .PUBLISH
    · subst hp
      simp [transitionVideo, videoReviewRow, videoTransitionAuditRow,
        hfind, hv, hns]
    · simp [transitionVideo, videoReviewRow, videoTransitionAuditRow,
        hfind, hv, hns, har, hp]

theorem transitionVideo_fail_rollback (videoId : String) (a : VideoAction)
    (ctx : TransitionContext) (now : Nat) (ff : Bool) (db : Db)
    (hfail : (transitionVideo videoId a ctx now ff db).1.success = false) :
    (transitionVideo videoId a ctx now ff db).2 = db := by
  cases hfind : findVideo db videoId with
  | none => simp [transitionVideo, hfind]
  | some video =>
    by_cases hv : (isValidVideoTransition video.status a ctx.userRole).valid = true
    · cases hns : (isValidVideoTransition video.status a ctx.userRole).nextState with
      | none => simp [transitionVideo, hfind, hv, hns]
      | some ns =>
        rw [transitionVideo_valid_eq hfind hv hns] at hfail ⊢
        by_cases har : a = .APPROVE ∨ a = .REJECT <;> by_cases hp : a = .PUBLISH <;>
          by_cases hff : ff = true <;>
            simp [har, hp, hff] at hfail ⊢
    · simp [transitionVideo, hfind, hv]

/-- The status written by a video transition update is the resolved next
stage, for every action (the PUBLISH extras do not change it). -/
theorem videoTransitionUpdate_status (a : VideoAction) (ns : VideoStatus)
    (u i : String) (n : Nat) (v : Video) :
    (videoTransitionUpdate a ns u i n v).status = ns := by
  unfold videoTransitionUpdate
  by_cases hp : a = .PUBLISH <;> simp [hp]

/-- The claim pair written by a video transition update is null. -/
theorem videoTransitionUpdate_claimPair (a : VideoAction) (ns : VideoStatus)
    (u i : String) (n : Nat) (v : Video) :
    (videoTransitionUpdate a ns u i n v).assignedReviewerId = none
      ∧ (videoTransitionUpdate a ns u i n v).assignedAt = none := by
  unfold videoTransitionUpdate
  by_cases hp : a = .PUBLISH <;> simp [hp]

/-- Everything a successful `transitionScript` guarantees: the item was
found, the validator accepted, and the store holds the updated row plus
exactly one appended audit row with the pre/post stages. -/
theorem transitionScript_success_spec {scriptId : String} {a : ScriptAction}
    {ctx : TransitionContext} {now : Nat} {ff : Bool} {db : Db} {script : Script}
    (hfind : findScript db scriptId = some script)
    (hsucc : (transitionScript scriptId a ctx now ff db).1.success = true) :
    ∃ ns, (isValidScriptTransition script.status a ctx.userRole).valid = true
      ∧ (isValidScriptTransition script.status a ctx.userRole).nextState = some ns
      ∧ (transitionScript scriptId a ctx now ff db).1.data
          = some (scriptTransitionUpdate ns script)
      ∧ findScript (transitionScript scriptId a ctx now ff db).2 scriptId
          = some (scriptTransitionUpdate ns script)
      ∧ (transitionScript scriptId a ctx now ff db).2.auditLogs
          = db.auditLogs
            ++ [scriptTransitionAuditRow scriptId a ctx script.status ns] := by
  by_cases hv : (isValidScriptTransition script.status a ctx.userRole).valid = true
  · cases hns : (isValidScriptTransition script.status a ctx.userRole).nextState with
    | none => simp [transitionScript, hfind, hv, hns] at hsucc
    | some ns =>
      refine ⟨ns, hv, rfl, ?_⟩
      rw [transitionScript_valid_eq hfind hv hns] at hsucc ⊢
      have hrow : (updateScriptRows scriptId (scriptTransitionUpdate ns)
          db.scripts).find? (fun s => s.id == scriptId)
          = some (scriptTransitionUpdate ns script) := by
        rw [findScript_update db scriptId (scriptTransitionUpdate ns)
          (fun s => rfl), hfind]
        rfl
      by_cases har : a = .APPROVE ∨ a = .REJECT
      · by_cases hff : ff = true
        · simp [har, hff] at hsucc
        · simp [har, hff, findScript, hrow]
      · simp [har, findScript, hrow]
  · simp [transitionScript, hfind, hv] at hsucc

/-- Everything a successful `transitionVideo` guarantees. -/
theorem transitionVideo_success_spec {videoId : String} {a : VideoAction}
    {ctx : TransitionContext} {now : Nat} {ff : Bool} {db : Db} {video : Video}
    (hfind : findVideo db videoId = some video)
    (hsucc : (transitionVideo videoId a ctx now ff db).1.success = true) :
    ∃ ns, (isValidVideoTransition video.status a ctx.userRole).valid = true
      ∧ (isValidVideoTransition video.status a ctx.userRole).nextState = some ns
      ∧ (transitionVideo videoId a ctx now ff db).1.data
          = some (videoTransitionUpdate a ns ctx.userId videoId now video)
      ∧ findVideo (transitionVideo videoId a ctx now ff db).2 videoId
          = some (videoTransitionUpdate a ns ctx.userId videoId now video)
      ∧ (transitionVideo videoId a ctx now ff db).2.auditLogs
          = db.auditLogs
            ++ [videoTransitionAuditRow videoId a ctx video.status ns] := by
  by_cases hv : (isValidVideoTransition video.status a ctx.userRole).valid = true
  · cases hns : (isValidVideoTransition video.status a ctx.userRole).nextState with
    | none => simp [transitionVideo, hfind, hv, hns] at hsucc
    | some ns =>
      refine ⟨ns, hv, rfl, ?_⟩
      rw [transitionVideo_valid_eq hfind hv hns] at hsucc ⊢
      have hid : ∀ v : Video,
          (videoTransitionUpdate a ns ctx.userId videoId now v).id = v.id := by
        intro v
        unfold videoTransitionUpdate
        by_cases hp : a = .PUBLISH <;> simp [hp]
      have hrow : (updateVideoRows videoId
          (videoTransitionUpdate a ns ctx.userId videoId now)
          db.videos).find? (fun v => v.id == videoId)
          = some (videoTransitionUpdate a ns ctx.userId videoId now video) := by
        rw [findVideo_update db videoId
          (videoTransitionUpdate a ns ctx.userId videoId now) hid, hfind]
        rfl
      by_cases har : a = .APPROVE ∨ a = .REJECT
      · by_cases hff : ff = true
        · simp [har, hff] at hsucc
        · simp [har, hff, findVideo, hrow]
      · by_cases hp : a = .PUBLISH
        · subst hp
          simp [findVideo, hrow]
        · simp [har, hp, findVideo, hrow]
  · simp [transitionVideo, hfind, hv] at hsucc

/-! ## Claim C1 -/

/-- C1: for every kind and review stage, a REJECT accepted by the validator
resolves to exactly one stage back along that kind's own order (Script:
MEDICAL_REVIEW→DRAFT, BRAND_REVIEW→MEDICAL_REVIEW, DOCTOR_REVIEW→BRAND_REVIEW;
Video: BRAND_REVIEW→DRAFT, MEDICAL_REVIEW→BRAND_REVIEW,
DOCTOR_REVIEW→MEDICAL_REVIEW), an APPROVE from DOCTOR_REVIEW resolves to the
intermediate APPROVED stage and never to LOCKED; and the transactional
executor writes exactly the validator's resolved stage to the item row. -/
theorem reject_one_back_approve_intermediate :
    (∀ r : UserRole,
      ((isValidScriptTransition .MEDICAL_REVIEW .REJECT r).valid = true →
        (isValidScriptTransition .MEDICAL_REVIEW .REJECT r).nextState = some .DRAFT)
      ∧ ((isValidScriptTransition .BRAND_REVIEW .REJECT r).valid = true →
        (isValidScriptTransition .BRAND_REVIEW .REJECT r).nextState
          = some .MEDICAL_REVIEW)
      ∧ ((isValidScriptTransition .DOCTOR_REVIEW .REJECT r).valid = true →
        (isValidScriptTransition .DOCTOR_REVIEW .REJECT r).nextState
          = some .BRAND_REVIEW)
      ∧ ((isValidVideoTransition .BRAND_REVIEW .REJECT r).valid = true →
        (isValidVideoTransition .BRAND_REVIEW .REJECT r).nextState = some .DRAFT)
      ∧ ((isValidVideoTransition .MEDICAL_REVIEW .REJECT r).valid = true →
        (isValidVideoTransition .MEDICAL_REVIEW .REJECT r).nextState
          = some .BRAND_REVIEW)
      ∧ ((isValidVideoTransition .DOCTOR_REVIEW .REJECT r).valid = true →
        (isValidVideoTransition .DOCTOR_REVIEW .REJECT r).nextState
          = some .MEDICAL_REVIEW)
      ∧ ((isValidScriptTransition .DOCTOR_REVIEW .APPROVE r).valid = true →
        (isValidScriptTransition .DOCTOR_REVIEW .APPROVE r).nextState
          = some .APPROVED
        ∧ (isValidScriptTransition .DOCTOR_REVIEW .APPROVE r).nextState
          ≠ some .LOCKED)
      ∧ ((isValidVideoTransition .DOCTOR_REVIEW .APPROVE r).valid = true →
        (isValidVideoTransition .DOCTOR_REVIEW .APPROVE r).nextState
          = some .APPROVED
        ∧ (isValidVideoTransition .DOCTOR_REVIEW .APPROVE r).nextState
          ≠ some .LOCKED))
    ∧ (∀ scriptId a ctx now ff db script,
      findScript db scriptId = some script →
      (transitionScript scriptId a ctx now ff db).1.success = true →
      ∃ row, findScript (transitionScript scriptId a ctx now ff db).2 scriptId
          = some row
        ∧ some row.status
          = (isValidScriptTransition script.status a ctx.userRole).nextState)
    ∧ (∀ videoId a ctx now ff db video,
      findVideo db videoId = some video →
      (transitionVideo videoId a ctx now ff db).1.success = true →
      ∃ row, findVideo (transitionVideo videoId a ctx now ff db).2 videoId
          = some row
        ∧ some row.status
          = (isValidVideoTransition video.status a ctx.userRole).nextState) := by
  refine ⟨by decide, ?_, ?_⟩
  · intro scriptId a ctx now ff db script hfind hsucc
    rcases transitionScript_success_spec hfind hsucc with ⟨ns, -, hns, -, hrow, -⟩
    exact ⟨scriptTransitionUpdate ns script, hrow, by rw [hns]; rfl⟩
  · intro videoId a ctx now ff db video hfind hsucc
    rcases transitionVideo_success_spec hfind hsucc with ⟨ns, -, hns, -, hrow, -⟩
    refine ⟨videoTransitionUpdate a ns ctx.userId videoId now video, hrow, ?_⟩
    rw [hns, videoTransitionUpdate_status]

/-- Witness for C1: a concrete REJECT run by a medical reviewer from
MEDICAL_REVIEW lands the script row on DRAFT, as the validator resolves. -/
theorem reject_one_back_approve_intermediate_witness :
    ∃ row, findScript (transitionScript "s1" .REJECT
        { userId := "alice", userRole := .MEDICAL_REVIEWER, comments := some "fix dosage" }
        7 false db0).2 "s1" = some row
      ∧ some row.status = (isValidScriptTransition ScriptStatus.MEDICAL_REVIEW
          .REJECT UserRole.MEDICAL_REVIEWER).nextState :=
  reject_one_back_approve_intermediate.2.1 "s1" .REJECT
    { userId := "alice", userRole := .MEDICAL_REVIEWER, comments := some "fix dosage" }
    7 false db0 script1 (by decide) (by decide)

/-! ## Claim C4 -/

/-- C4: for every kind, stage, action and role, the validator rejects with
the `Action ... not allowed` error exactly when the (stage, action) pair is
absent from that kind's table; rejects with the `Role ... cannot perform ...
Required: ...` error (naming the required role set and the actor's role)
when the pair exists but the role is outside its allowed set; and otherwise
accepts with the table's next stage. -/
theorem validator_absent_forbidden_ok :
    (∀ s a r, SCRIPT_TRANSITIONS s a = none →
      isValidScriptTransition s a r =
        { valid := false, nextState := none,
          error := some (scriptInvalidMsg s a) })
    ∧ (∀ s a r rule, SCRIPT_TRANSITIONS s a = some rule →
      r ∉ rule.requiredRoles →
      isValidScriptTransition s a r =
        { valid := false, nextState := none,
          error := some (scriptForbiddenMsg s a r rule.requiredRoles) })
    ∧ (∀ s a r rule, SCRIPT_TRANSITIONS s a = some rule →
      r ∈ rule.requiredRoles →
      isValidScriptTransition s a r =
        { valid := true, nextState := some rule.nextState, error := none })
    ∧ (∀ s a r, VIDEO_TRANSITIONS s a = none →
      isValidVideoTransition s a r =
        { valid := false, nextState := none,
          error := some (videoInvalidMsg s a) })
    ∧ (∀ s a r rule, VIDEO_TRANSITIONS s a = some rule →
      r ∉ rule.requiredRoles →
      isValidVideoTransition s a r =
        { valid := false, nextState := none,
          error := some (videoForbiddenMsg s a r rule.requiredRoles) })
    ∧ (∀ s a r rule, VIDEO_TRANSITIONS s a = some rule →
      r ∈ rule.requiredRoles →
      isValidVideoTransition s a r =
        { valid := true, nextState := some rule.nextState, error := none }) := by
  refine ⟨?_, ?_, ?_, ?_, ?_, ?_⟩
  · intro s a r h
    simp [isValidScriptTransition, h]
  · intro s a r rule h hr
    simp [isValidScriptTransition, h, hr]
  · intro s a r rule h hr
    simp [isValidScriptTransition, h, hr]
  · intro s a r h
    simp [isValidVideoTransition, h]
  · intro s a r rule h hr
    simp [isValidVideoTransition, h, hr]
  · intro s a r rule h hr
    simp [isValidVideoTransition, h, hr]

/-- Witness for C4: one concrete instance of each of the six cases. -/
theorem validator_absent_forbidden_ok_witness :
    isValidScriptTransition .DRAFT .APPROVE .SUPER_ADMIN =
      { valid := false, nextState := none,
        error := some (scriptInvalidMsg .DRAFT .APPROVE) }
    ∧ isValidScriptTransition .MEDICAL_REVIEW .APPROVE .AGENCY_POC =
      { valid := false, nextState := none,
        error := some (scriptForbiddenMsg .MEDICAL_REVIEW .APPROVE .AGENCY_POC
          [.MEDICAL_REVIEWER, .SUPER_ADMIN]) }
    ∧ isValidScriptTransition .MEDICAL_REVIEW .APPROVE .MEDICAL_REVIEWER =
      { valid := true, nextState := some .BRAND_REVIEW, error := none }
    ∧ isValidVideoTransition .ARCHIVED .SUBMIT .SUPER_ADMIN =
      { valid := false, nextState := none,
        error := some (videoInvalidMsg .ARCHIVED .SUBMIT) }
    ∧ isValidVideoTransition .LOCKED .PUBLISH .VIEWER =
      { valid := false, nextState := none,
        error := some (videoForbiddenMsg .LOCKED .PUBLISH .VIEWER
          [.PUBLISHER, .SUPER_ADMIN]) }
    ∧ isValidVideoTransition .LOCKED .PUBLISH .PUBLISHER =
      { valid := true, nextState := some .PUBLISHED, error := none } :=
  ⟨validator_absent_forbidden_ok.1 .DRAFT .APPROVE .SUPER_ADMIN rfl,
   validator_absent_forbidden_ok.2.1 .MEDICAL_REVIEW .APPROVE .AGENCY_POC
     { nextState := .BRAND_REVIEW,
       requiredRoles := [.MEDICAL_REVIEWER, .SUPER_ADMIN] } rfl (by decide),
   validator_absent_forbidden_ok.2.2.1 .MEDICAL_REVIEW .APPROVE .MEDICAL_REVIEWER
     { nextState := .BRAND_REVIEW,
       requiredRoles := [.MEDICAL_REVIEWER, .SUPER_ADMIN] } rfl (by decide),
   validator_absent_forbidden_ok.2.2.2.1 .ARCHIVED .SUBMIT .SUPER_ADMIN rfl,
   validator_absent_forbidden_ok.2.2.2.2.1 .LOCKED .PUBLISH .VIEWER
     { nextState := .PUBLISHED,
       requiredRoles := [.PUBLISHER, .SUPER_ADMIN] } rfl (by decide),
   validator_absent_forbidden_ok.2.2.2.2.2 .LOCKED .PUBLISH .PUBLISHER
     { nextState := .PUBLISHED,
       requiredRoles := [.PUBLISHER, .SUPER_ADMIN] } rfl (by decide)⟩

/-! ## Claim C3 -/

/-- C3: the generic executors are all-or-nothing.  Any failing call —
including a forced failure injected into the review-record insertion —
leaves the store exactly as it was (stage, claim pair, reviews, audit log
all unchanged), and the forced review-insert failure does fail any
APPROVE/REJECT that passed validation. -/
theorem transition_all_or_nothing :
    (∀ scriptId a ctx now ff db,
      (transitionScript scriptId a ctx now ff db).1.success = false →
      (transitionScript scriptId a ctx now ff db).2 = db)
    ∧ (∀ videoId a ctx now ff db,
      (transitionVideo videoId a ctx now ff db).1.success = false →
      (transitionVideo videoId a ctx now ff db).2 = db)
    ∧ (∀ scriptId a ctx now db script,
      findScript db scriptId = some script →
      (isValidScriptTransition script.status a ctx.userRole).valid = true →
      (a = .APPROVE ∨ a = .REJECT) →
      (transitionScript scriptId a ctx now true db).1.success = false)
    ∧ (∀ videoId a ctx now db video,
      findVideo db videoId = some video →
      (isValidVideoTransition video.status a ctx.userRole).valid = true →
      (a = .APPROVE ∨ a = .REJECT) →
      (transitionVideo videoId a ctx now true db).1.success = false) := by
  refine ⟨transitionScript_fail_rollback, transitionVideo_fail_rollback, ?_, ?_⟩
  · intro scriptId a ctx now db script hfind hv har
    rcases isValidScriptTransition_valid _ _ _ hv with ⟨rule, -, -, hns⟩
    rw [transitionScript_valid_eq hfind hv hns]
    simp [har]
  · intro videoId a ctx now db video hfind hv har
    rcases isValidVideoTransition_valid _ _ _ hv with ⟨rule, -, -, hns⟩
    rw [transitionVideo_valid_eq hfind hv hns]
    simp [har]

/-- Witness for C3: a forced failure during the review-record insertion of a
concrete APPROVE fails the call and leaves the concrete store untouched. -/
theorem transition_all_or_nothing_witness :
    (transitionScript "s1" .APPROVE ctxAlice 3 true db0).1.success = false
      ∧ (transitionScript "s1" .APPROVE ctxAlice 3 true db0).2 = db0 :=
  have hfail : (transitionScript "s1" .APPROVE ctxAlice 3 true db0).1.success = false :=
    transition_all_or_nothing.2.2.1 "s1" .APPROVE ctxAlice 3 db0 script1
      (by decide) (by decide) (Or.inl rfl)
  ⟨hfail, transition_all_or_nothing.1 "s1" .APPROVE ctxAlice 3 true db0 hfail⟩

/-! ## Claim C5 — helper lemmas -/

theorem pairsOk_scripts_update {db : Db} {i : String} {f : Script → Script}
    (h : dbClaimPairsOk db)
    (hf : ∀ s, claimPairOk s.assignedReviewerId s.assignedAt →
      claimPairOk (f s).assignedReviewerId (f s).assignedAt) :
    ∀ t ∈ updateScriptRows i f db.scripts,
      claimPairOk t.assignedReviewerId t.assignedAt := by
  intro t ht
  unfold updateScriptRows at ht
  rcases mem_update_of_mem _ f ht with h1 | ⟨s, hs, rfl⟩
  · exact h.1 t h1
  · exact hf s (h.1 s hs)

theorem pairsOk_videos_update {db : Db} {i : String} {f : Video → Video}
    (h : dbClaimPairsOk db)
    (hf : ∀ v, claimPairOk v.assignedReviewerId v.assignedAt →
      claimPairOk (f v).assignedReviewerId (f v).assignedAt) :
    ∀ t ∈ updateVideoRows i f db.videos,
      claimPairOk t.assignedReviewerId t.assignedAt := by
  intro t ht
  unfold updateVideoRows at ht
  rcases mem_update_of_mem _ f ht with h1 | ⟨v, hv, rfl⟩
  · exact h.2 t h1
  · exact hf v (h.2 v hv)

theorem transitionScript_pairsOk (scriptId : String) (a : ScriptAction)
    (ctx : TransitionContext) (now : Nat) (ff : Bool) (db : Db)
    (h : dbClaimPairsOk db) :
    dbClaimPairsOk (transitionScript scriptId a ctx now ff db).2 := by
  cases hfind : findScript db scriptId with
  | none => simpa [transitionScript, hfind] using h
  | some script =>
    by_cases hv : (isValidScriptTransition script.status a ctx.userRole).valid = true
    · cases hns : (isValidScriptTransition script.status a ctx.userRole).nextState with
      | none => simpa [transitionScript, hfind, hv, hns] using h
      | some ns =>
        rw [transitionScript_valid_eq hfind hv hns]
        have hupd : ∀ t ∈ updateScriptRows scriptId (scriptTransitionUpdate ns)
            db.scripts, claimPairOk t.assignedReviewerId t.assignedAt :=
          pairsOk_scripts_update h (fun s _ => rfl)
        by_cases har : a = .APPROVE ∨ a = .REJECT
        · by_cases hff : ff = true
          · simpa [har, hff] using h
          · simp [har, hff, dbClaimPairsOk]
            exact ⟨hupd, h.2⟩
        · simp [har, dbClaimPairsOk]
          exact ⟨hupd, h.2⟩
    · simpa [transitionScript, hfind, hv] using h

theorem transitionVideo_pairsOk (videoId : String) (a : VideoAction)
    (ctx : TransitionContext) (now : Nat) (ff : Bool) (db : Db)
    (h : dbClaimPairsOk db) :
    dbClaimPairsOk (transitionVideo videoId a ctx now ff db).2 := by
  cases hfind : findVideo db videoId with
  | none => simpa [transitionVideo, hfind] using h
  | some video =>
    by_cases hv : (isValidVideoTransition video.status a ctx.userRole).valid = true
    · cases hns : (isValidVideoTransition video.status a ctx.userRole).nextState with
      | none => simpa [transitionVideo, hfind, hv, hns] using h
      | some ns =>
        rw [transitionVideo_valid_eq hfind hv hns]
        have hupd : ∀ t ∈ updateVideoRows videoId
            (videoTransitionUpdate a ns ctx.userId videoId now)
            db.videos, claimPairOk t.assignedReviewerId t.assignedAt := by
          refine pairsOk_videos_update h (fun v _ => ?_)
          rcases videoTransitionUpdate_claimPair a ns ctx.userId videoId now v
            with ⟨h1, h2⟩
          unfold claimPairOk
          rw [h1, h2]
          rfl
        by_cases har : a = .APPROVE ∨ a = .REJECT
        · by_cases hff : ff = true
          · simpa [har, hff] using h
          · simp [har, hff, dbClaimPairsOk]
            exact ⟨h.1, hupd⟩
        · by_cases hp : a = .PUBLISH
          · subst hp
            simp [dbClaimPairsOk]
            exact ⟨h.1, hupd⟩
          · simp [har, hp, dbClaimPairsOk]
            exact ⟨h.1, hupd⟩
    · simpa [transitionVideo, hfind, hv] using h

theorem lockScript_pairsOk (scriptId : String) (ctx : TransitionContext)
    (now : Nat) (db : Db) (h : dbClaimPairsOk db) :
    dbClaimPairsOk (lockScript scriptId ctx now db).2 := by
  unfold lockScript
  by_cases hrole : ctx.userRole ∈ LOCK_PERMISSIONS_CAN_LOCK_SCRIPT
  · cases hfind : findScript db scriptId with
    | none => simpa [hrole, hfind] using h
    | some script =>
      by_cases hs : script.status = .APPROVED
      · simp [hrole, hfind, hs, dbClaimPairsOk]
        exact ⟨pairsOk_scripts_update h (fun s hp => hp), h.2⟩
      · simpa [hrole, hfind, hs] using h
  · simpa [hrole] using h

theorem unlockScript_pairsOk (scriptId : String) (ctx : TransitionContext)
    (db : Db) (h : dbClaimPairsOk db) :
    dbClaimPairsOk (unlockScript scriptId ctx db).2 := by
  unfold unlockScript
  by_cases hrole : ctx.userRole ∈ LOCK_PERMISSIONS_CAN_UNLOCK
  · cases hfind : findScript db scriptId with
    | none => simpa [hrole, hfind] using h
    | some script =>
      by_cases hs : script.status = .LOCKED
      · simp [hrole, hfind, hs, dbClaimPairsOk]
        exact ⟨pairsOk_scripts_update h (fun s hp => hp), h.2⟩
      · simpa [hrole, hfind, hs] using h
  · simpa [hrole] using h

theorem lockVideo_pairsOk (videoId : String) (ctx : TransitionContext)
    (now : Nat) (db : Db) (h : dbClaimPairsOk db) :
    dbClaimPairsOk (lockVideo videoId ctx now db).2 := by
  unfold lockVideo
  by_cases hrole : ctx.userRole ∈ LOCK_PERMISSIONS_CAN_LOCK_VIDEO
  · cases hfind : findVideo db videoId with
    | none => simpa [hrole, hfind] using h
    | some video =>
      by_cases hs : video.status = .APPROVED
      · simp [hrole, hfind, hs, dbClaimPairsOk]
        exact ⟨h.1, pairsOk_videos_update h (fun v hp => hp)⟩
      · simpa [hrole, hfind, hs] using h
  · simpa [hrole] using h

theorem unlockVideo_pairsOk (videoId : String) (ctx : TransitionContext)
    (db : Db) (h : dbClaimPairsOk db) :
    dbClaimPairsOk (unlockVideo videoId ctx db).2 := by
  unfold unlockVideo
  by_cases hrole : ctx.userRole ∈ LOCK_PERMISSIONS_CAN_UNLOCK
  · cases hfind : findVideo db videoId with
    | none => simpa [hrole, hfind] using h
    | some video =>
      by_cases hs : video.status = .LOCKED
      · simp [hrole, hfind, hs, dbClaimPairsOk]
        exact ⟨h.1, pairsOk_videos_update h (fun v hp => hp)⟩
      · simpa [hrole, hfind, hs] using h
  · simpa [hrole] using h

theorem claimScript_pairsOk (scriptId : String) (ctx : TransitionContext)
    (now : Nat) (db : Db) (h : dbClaimPairsOk db) :
    dbClaimPairsOk (claimScript scriptId ctx now db).2 := by
  unfold claimScript
  cases hdec : claimScriptDecision scriptId ctx db with
  | notFound => simpa using h
  | alreadyClaimed msg => simpa using h
  | idempotent => simpa using h
  | forbiddenStage msg => simpa using h
  | proceed =>
    simp [claimScriptAudit, claimScriptWrite, dbClaimPairsOk]
    exact ⟨pairsOk_scripts_update h (fun s _ => rfl), h.2⟩

theorem claimVideo_pairsOk (videoId : String) (ctx : TransitionContext)
    (now : Nat) (db : Db) (h : dbClaimPairsOk db) :
    dbClaimPairsOk (claimVideo videoId ctx now db).2 := by
  unfold claimVideo
  cases hdec : claimVideoDecision videoId ctx db with
  | notFound => simpa using h
  | alreadyClaimed msg => simpa using h
  | idempotent => simpa using h
  | forbiddenStage msg => simpa using h
  | proceed =>
    simp [claimVideoAudit, claimVideoWrite, dbClaimPairsOk]
    exact ⟨h.1, pairsOk_videos_update h (fun v _ => rfl)⟩

theorem releaseScript_pairsOk (scriptId : String) (ctx : TransitionContext)
    (db : Db) (h : dbClaimPairsOk db) :
    dbClaimPairsOk (releaseScript scriptId ctx db).2 := by
  unfold releaseScript
  cases hfind : findScript db scriptId with
  | none => simpa using h
  | some script =>
    by_cases hc : script.assignedReviewerId ≠ some ctx.userId
        ∧ ctx.userRole ≠ .SUPER_ADMIN
    · simpa [hc] using h
    · simp [hc, dbClaimPairsOk]
      exact ⟨pairsOk_scripts_update h (fun s _ => rfl), h.2⟩

theorem releaseVideo_pairsOk (videoId : String) (ctx : TransitionContext)
    (db : Db) (h : dbClaimPairsOk db) :
    dbClaimPairsOk (releaseVideo videoId ctx db).2 := by
  unfold releaseVideo
  cases hfind : findVideo db videoId with
  | none => simpa using h
  | some video =>
    by_cases hc : video.assignedReviewerId ≠ some ctx.userId
        ∧ ctx.userRole ≠ .SUPER_ADMIN
    · simpa [hc] using h
    · simp [hc, dbClaimPairsOk]
      exact ⟨h.1, pairsOk_videos_update h (fun v _ => rfl)⟩

theorem publishVideo_pairsOk (videoId userId : String) (userRole : UserRole)
    (now : Nat) (db : Db) (h : dbClaimPairsOk db) :
    dbClaimPairsOk (publishVideo videoId userId userRole now db).2 := by
  unfold publishVideo
  have htx : dbClaimPairsOk (transitionVideo videoId .PUBLISH
      { userId := userId, userRole := userRole } now false db).2 :=
    transitionVideo_pairsOk videoId .PUBLISH
      { userId := userId, userRole := userRole } now false db h
  cases hdata : (transitionVideo videoId .PUBLISH
      { userId := userId, userRole := userRole } now false db).1.data with
  | none => simpa [hdata] using htx
  | some video =>
    cases hsucc : (transitionVideo videoId .PUBLISH
        { userId := userId, userRole := userRole } now false db).1.success with
    | false => simpa [hdata, hsucc] using htx
    | true =>
      simp [hdata, hsucc, dbClaimPairsOk]
      exact ⟨htx.1, htx.2⟩

/-! ## Claim C5 -/

/-- C5: every successful generic transition unconditionally nulls the claim
pair on the item (both in the returned row and in the store), and every
operation of the engine preserves the invariant that `assignedReviewerId`
and `assignedAt` are both set or both null. -/
theorem transition_clears_claim_and_pair_invariant :
    (∀ scriptId a ctx now ff db script,
      findScript db scriptId = some script →
      (transitionScript scriptId a ctx now ff db).1.success = true →
      ∃ row, findScript (transitionScript scriptId a ctx now ff db).2 scriptId
          = some row
        ∧ (transitionScript scriptId a ctx now ff db).1.data = some row
        ∧ row.assignedReviewerId = none ∧ row.assignedAt = none)
    ∧ (∀ videoId a ctx now ff db video,
      findVideo db videoId = some video →
      (transitionVideo videoId a ctx now ff db).1.success = true →
      ∃ row, findVideo (transitionVideo videoId a ctx now ff db).2 videoId
          = some row
        ∧ (transitionVideo videoId a ctx now ff db).1.data = some row
        ∧ row.assignedReviewerId = none ∧ row.assignedAt = none)
    ∧ (∀ scriptId a ctx now ff db, dbClaimPairsOk db →
        dbClaimPairsOk (transitionScript scriptId a ctx now ff db).2)
    ∧ (∀ videoId a ctx now ff db, dbClaimPairsOk db →
        dbClaimPairsOk (transitionVideo videoId a ctx now ff db).2)
    ∧ (∀ scriptId ctx now db, dbClaimPairsOk db →
        dbClaimPairsOk (lockScript scriptId ctx now db).2)
    ∧ (∀ videoId ctx now db, dbClaimPairsOk db →
        dbClaimPairsOk (lockVideo videoId ctx now db).2)
    ∧ (∀ scriptId ctx db, dbClaimPairsOk db →
        dbClaimPairsOk (unlockScript scriptId ctx db).2)
    ∧ (∀ videoId ctx db, dbClaimPairsOk db →
        dbClaimPairsOk (unlockVideo videoId ctx db).2)
    ∧ (∀ scriptId ctx now db, dbClaimPairsOk db →
        dbClaimPairsOk (claimScript scriptId ctx now db).2)
    ∧ (∀ videoId ctx now db, dbClaimPairsOk db →
        dbClaimPairsOk (claimVideo videoId ctx now db).2)
    ∧ (∀ scriptId ctx db, dbClaimPairsOk db →
        dbClaimPairsOk (releaseScript scriptId ctx db).2)
    ∧ (∀ videoId ctx db, dbClaimPairsOk db →
        dbClaimPairsOk (releaseVideo videoId ctx db).2)
    ∧ (∀ videoId userId userRole now db, dbClaimPairsOk db →
        dbClaimPairsOk (publishVideo videoId userId userRole now db).2) := by
  refine ⟨?_, ?_, transitionScript_pairsOk, transitionVideo_pairsOk,
    lockScript_pairsOk, lockVideo_pairsOk, unlockScript_pairsOk,
    unlockVideo_pairsOk, claimScript_pairsOk, claimVideo_pairsOk,
    releaseScript_pairsOk, releaseVideo_pairsOk, publishVideo_pairsOk⟩
  · intro scriptId a ctx now ff db script hfind hsucc
    rcases transitionScript_success_spec hfind hsucc with ⟨ns, -, -, hdata, hrow, -⟩
    exact ⟨scriptTransitionUpdate ns script, hrow, hdata, rfl, rfl⟩
  · intro videoId a ctx now ff db video hfind hsucc
    rcases transitionVideo_success_spec hfind hsucc with ⟨ns, -, -, hdata, hrow, -⟩
    rcases videoTransitionUpdate_claimPair a ns ctx.userId videoId now video
      with ⟨h1, h2⟩
    exact ⟨videoTransitionUpdate a ns ctx.userId videoId now video,
      hrow, hdata, h1, h2⟩

/-- Witness for C5: a concrete successful APPROVE from a claimed script
returns the item with both claim fields null, and the run preserves the
store-wide pair invariant. -/
theorem transition_clears_claim_and_pair_invariant_witness :
    (∃ row, findScript (transitionScript "s1" .APPROVE ctxAlice 3 false dbAlice).2 "s1"
        = some row
      ∧ (transitionScript "s1" .APPROVE ctxAlice 3 false dbAlice).1.data = some row
      ∧ row.assignedReviewerId = none ∧ row.assignedAt = none)
    ∧ dbClaimPairsOk (claimScript "s1" ctxBob 2 db0).2 :=
  ⟨transition_clears_claim_and_pair_invariant.1 "s1" .APPROVE ctxAlice 3 false
      dbAlice script1Alice (by decide) (by decide),
   transition_clears_claim_and_pair_invariant.2.2.2.2.2.2.2.2.1 "s1" ctxBob 2 db0
      (by simp only [dbClaimPairsOk, claimPairOk]; decide)⟩

/-! ## Claim C10 -/

/-- C10: in `claimScript`/`claimVideo` the already-claimed checks run before
the stage-role permission check.  A caller who already holds the claim
re-claims successfully with no field write and no audit entry, whatever
their role; a caller facing an item held by a different actor gets the
AlreadyClaimed failure naming the holder, whatever their role.  Both parts
hold for every `ctx.userRole`, so the role set of the current stage is never
consulted on these paths. -/
theorem claim_already_claimed_before_role_check :
    (∀ scriptId ctx now db script,
      findScript db scriptId = some script →
      script.assignedReviewerId = some ctx.userId →
      claimScript scriptId ctx now db
        = ({ success := true, data := some script, error := none }, db))
    ∧ (∀ scriptId ctx now db script holder,
      findScript db scriptId = some script →
      script.assignedReviewerId = some holder →
      holder ≠ ctx.userId →
      claimScript scriptId ctx now db
        = ({ success := false, data := none,
             error := some (claimScriptTakenMsg db holder) }, db))
    ∧ (∀ videoId ctx now db video,
      findVideo db videoId = some video →
      video.assignedReviewerId = some ctx.userId →
      claimVideo videoId ctx now db
        = ({ success := true, data := some video, error := none }, db))
    ∧ (∀ videoId ctx now db video holder,
      findVideo db videoId = some video →
      video.assignedReviewerId = some holder →
      holder ≠ ctx.userId →
      claimVideo videoId ctx now db
        = ({ success := false, data := none,
             error := some (claimVideoTakenMsg db holder) }, db)) := by
  refine ⟨?_, ?_, ?_, ?_⟩
  · intro scriptId ctx now db script hfind hassigned
    simp [claimScript, claimScriptDecision, hfind, hassigned]
  · intro scriptId ctx now db script holder hfind hassigned hneq
    simp [claimScript, claimScriptDecision, hfind, hassigned, hneq]
  · intro videoId ctx now db video hfind hassigned
    simp [claimVideo, claimVideoDecision, hfind, hassigned]
  · intro videoId ctx now db video holder hfind hassigned hneq
    simp [claimVideo, claimVideoDecision, hfind, hassigned, hneq]

/-- Witness for C10: the holder re-claims with a role (VIEWER) that the
stage's role set does not allow, and still succeeds with no state change; a
different VIEWER caller gets AlreadyClaimed naming the holder. -/
theorem claim_already_claimed_before_role_check_witness :
    claimScript "s1" ctxAliceViewer 9 dbAlice
      = ({ success := true, data := some script1Alice, error := none }, dbAlice)
    ∧ claimScript "s1" ctxEveViewer 9 dbAlice
      = ({ success := false, data := none,
           error := some (claimScriptTakenMsg dbAlice "alice") }, dbAlice) :=
  ⟨claim_already_claimed_before_role_check.1 "s1" ctxAliceViewer 9 dbAlice
      script1Alice (by decide) (by decide),
   claim_already_claimed_before_role_check.2.1 "s1" ctxEveViewer 9 dbAlice
      script1Alice "alice" (by decide) (by decide) (by decide)⟩

/-! ## Claim C8 -/

/-- C8: release by a caller who is neither the current holder nor a
super-admin fails Forbidden with the store unchanged; release of a claimed
item by the holder or a super-admin clears both claim fields and appends one
audit entry whose action is `FORCE_RELEASE_*` exactly when a super-admin
releases a claim held by someone else, and `RELEASE_*` exactly when the
holder releases their own claim. -/
theorem release_auth_and_audit_name :
    (∀ scriptId ctx db script,
      findScript db scriptId = some script →
      script.assignedReviewerId ≠ some ctx.userId →
      ctx.userRole ≠ .SUPER_ADMIN →
      releaseScript scriptId ctx db
        = ({ success := false, data := none,
             error := some "Only the assigned reviewer or Super Admin can release this script" },
           db))
    ∧ (∀ scriptId ctx db script holder,
      findScript db scriptId = some script →
      script.assignedReviewerId = some holder →
      (holder = ctx.userId ∨ ctx.userRole = .SUPER_ADMIN) →
      ∃ e, (releaseScript scriptId ctx db).1.success = true
        ∧ findScript (releaseScript scriptId ctx db).2 scriptId
            = some { script with assignedReviewerId := none, assignedAt := none }
        ∧ (releaseScript scriptId ctx db).2.auditLogs = db.auditLogs ++ [e]
        ∧ (e.action = "FORCE_RELEASE_SCRIPT"
            ↔ ctx.userRole = .SUPER_ADMIN ∧ holder ≠ ctx.userId)
        ∧ (e.action = "RELEASE_SCRIPT" ↔ holder = ctx.userId))
    ∧ (∀ videoId ctx db video,
      findVideo db videoId = some video →
      video.assignedReviewerId ≠ some ctx.userId →
      ctx.userRole ≠ .SUPER_ADMIN →
      releaseVideo videoId ctx db
        = ({ success := false, data := none,
             error := some "Only the assigned reviewer or Super Admin can release this video" },
           db))
    ∧ (∀ videoId ctx db video holder,
      findVideo db videoId = some video →
      video.assignedReviewerId = some holder →
      (holder = ctx.userId ∨ ctx.userRole = .SUPER_ADMIN) →
      ∃ e, (releaseVideo videoId ctx db).1.success = true
        ∧ findVideo (releaseVideo videoId ctx db).2 videoId
            = some { video with assignedReviewerId := none, assignedAt := none }
        ∧ (releaseVideo videoId ctx db).2.auditLogs = db.auditLogs ++ [e]
        ∧ (e.action = "FORCE_RELEASE_VIDEO"
            ↔ ctx.userRole = .SUPER_ADMIN ∧ holder ≠ ctx.userId)
        ∧ (e.action = "RELEASE_VIDEO" ↔ holder = ctx.userId)) := by
  refine ⟨?_, ?_, ?_, ?_⟩
  · intro scriptId ctx db script hfind hnh hna
    simp [releaseScript, hfind, hnh, hna]
  · intro scriptId ctx db script holder hfind hassigned hauth
    have hc : ¬(script.assignedReviewerId ≠ some ctx.userId
        ∧ ctx.userRole ≠ .SUPER_ADMIN) := by
      rcases hauth with h | h
      · intro hcon
        exact hcon.1 (by rw [hassigned, h])
      · intro hcon
        exact hcon.2 h
    have hrow : (updateScriptRows scriptId
        (fun s => { s with assignedReviewerId := none, assignedAt := none })
        db.scripts).find? (fun s => s.id == scriptId)
        = some { script with assignedReviewerId := none, assignedAt := none } := by
      rw [findScript_update db scriptId
        (fun s => { s with assignedReviewerId := none, assignedAt := none })
        (fun s => rfl), hfind]
      rfl
    refine ⟨{ userId := ctx.userId,
               action := if ctx.userRole = .SUPER_ADMIN
                   ∧ (some holder : Option String) ≠ some ctx.userId then
                   "FORCE_RELEASE_SCRIPT"
                 else
                   "RELEASE_SCRIPT",
               entityType := "SCRIPT", entityId := scriptId,
               oldValue := { assignedReviewerId := some (some holder) },
               newValue := { assignedReviewerId := some none } },
      ?_, ?_, ?_, ?_, ?_⟩
    · simp [releaseScript, hfind, hc]
    · simp [releaseScript, hfind, hc]
      simpa [findScript] using hrow
    · have hc2 : ¬(¬holder = ctx.userId ∧ ¬ctx.userRole = UserRole.SUPER_ADMIN) := by
        rcases hauth with h | h
        · exact fun hcon => hcon.1 h
        · exact fun hcon => hcon.2 h
      simp [releaseScript, hfind, hassigned, hc2]
    · by_cases hC : ctx.userRole = .SUPER_ADMIN ∧ holder ≠ ctx.userId
      · rw [if_pos ⟨hC.1, by simpa using hC.2⟩]
        simp [hC]
      · rw [if_neg (fun hcon => hC ⟨hcon.1, by simpa using hcon.2⟩)]
        constructor
        · intro h
          have h2 : "RELEASE_SCRIPT" = "FORCE_RELEASE_SCRIPT" := h
          exact absurd h2 (by decide)
        · intro h
          exact absurd h hC
    · by_cases hh : holder = ctx.userId
      · rw [if_neg (fun hcon => hcon.2 (by rw [hh]))]
        simp [hh]
      · have hs : ctx.userRole = .SUPER_ADMIN := hauth.resolve_left hh
        rw [if_pos ⟨hs, by simpa using hh⟩]
        constructor
        · intro h
          have h2 : "FORCE_RELEASE_SCRIPT" = "RELEASE_SCRIPT" := h
          exact absurd h2 (by decide)
        · intro h
          exact absurd h hh
  · intro videoId ctx db video hfind hnh hna
    simp [releaseVideo, hfind, hnh, hna]
  · intro videoId ctx db video holder hfind hassigned hauth
    have hc : ¬(video.assignedReviewerId ≠ some ctx.userId
        ∧ ctx.userRole ≠ .SUPER_ADMIN) := by
      rcases hauth with h | h
      · intro hcon
        exact hcon.1 (by rw [hassigned, h])
      · intro hcon
        exact hcon.2 h
    have hrow : (updateVideoRows videoId
        (fun v => { v with assignedReviewerId := none, assignedAt := none })
        db.videos).find? (fun v => v.id == videoId)
        = some { video with assignedReviewerId := none, assignedAt := none } := by
      rw [findVideo_update db videoId
        (fun v => { v with assignedReviewerId := none, assignedAt := none })
        (fun v => rfl), hfind]
      rfl
    refine ⟨{ userId := ctx.userId,
               action := if ctx.userRole = .SUPER_ADMIN
                   ∧ (some holder : Option String) ≠ some ctx.userId then
                   "FORCE_RELEASE_VIDEO"
                 else
                   "RELEASE_VIDEO",
               entityType := "VIDEO", entityId := videoId,
               oldValue := { assignedReviewerId := some (some holder) },
               newValue := { assignedReviewerId := some none } },
      ?_, ?_, ?_, ?_, ?_⟩
    · simp [releaseVideo, hfind, hc]
    · simp [releaseVideo, hfind, hc]
      simpa [findVideo] using hrow
    · have hc2 : ¬(¬holder = ctx.userId ∧ ¬ctx.userRole = UserRole.SUPER_ADMIN) := by
        rcases hauth with h | h
        · exact fun hcon => hcon.1 h
        · exact fun hcon => hcon.2 h
      simp [releaseVideo, hfind, hassigned, hc2]
    · by_cases hC : ctx.userRole = .SUPER_ADMIN ∧ holder ≠ ctx.userId
      · rw [if_pos ⟨hC.1, by simpa using hC.2⟩]
        simp [hC]
      · rw [if_neg (fun hcon => hC ⟨hcon.1, by simpa using hcon.2⟩)]
        constructor
        · intro h
          have h2 : "RELEASE_VIDEO" = "FORCE_RELEASE_VIDEO" := h
          exact absurd h2 (by decide)
        · intro h
          exact absurd h hC
    · by_cases hh : holder = ctx.userId
      · rw [if_neg (fun hcon => hcon.2 (by rw [hh]))]
        simp [hh]
      · have hs : ctx.userRole = .SUPER_ADMIN := hauth.resolve_left hh
        rw [if_pos ⟨hs, by simpa using hh⟩]
        constructor
        · intro h
          have h2 : "FORCE_RELEASE_VIDEO" = "RELEASE_VIDEO" := h
          exact absurd h2 (by decide)
        · intro h
          exact absurd h hh

/-- Witness for C8: bob (neither holder nor admin) is refused on alice's
claim with the store unchanged, and carol (super-admin) force-releases
alice's claim with the distinct audit action name. -/
theorem release_auth_and_audit_name_witness :
    releaseScript "s1" ctxBob dbAlice
      = ({ success := false, data := none,
           error := some "Only the assigned reviewer or Super Admin can release this script" },
         dbAlice)
    ∧ ∃ e, (releaseScript "s1" ctxCarol dbAlice).1.success = true
      ∧ findScript (releaseScript "s1" ctxCarol dbAlice).2 "s1"
          = some { script1Alice with assignedReviewerId := none, assignedAt := none }
      ∧ (releaseScript "s1" ctxCarol dbAlice).2.auditLogs = dbAlice.auditLogs ++ [e]
      ∧ (e.action = "FORCE_RELEASE_SCRIPT"
          ↔ ctxCarol.userRole = .SUPER_ADMIN ∧ "alice" ≠ ctxCarol.userId)
      ∧ (e.action = "RELEASE_SCRIPT" ↔ "alice" = ctxCarol.userId) :=
  ⟨release_auth_and_audit_name.1 "s1" ctxBob dbAlice script1Alice
      (by decide) (by decide) (by decide),
   release_auth_and_audit_name.2.1 "s1" ctxCarol dbAlice script1Alice "alice"
      (by decide) (by decide) (Or.inr rfl)⟩

/-! ## Claim C2 -/

/-- C2: the claim operations are read-then-write, not compare-and-swap.  On
the concrete unclaimed store `db0`, two racing claims by alice and bob whose
reads both precede the writes both decide `proceed` (so both calls report
success — neither receives AlreadyClaimed), and bob's later unconditional
write silently overwrites alice's lease; the write phase applied to a store
where alice already holds the claim still succeeds and overwrites, because
the update's `where` clause filters on id only and carries no null-check of
the claim field. -/
theorem claim_read_then_write_race :
    claimScriptDecision "s1" ctxAlice db0 = .proceed
    ∧ claimScriptDecision "s1" ctxBob db0 = .proceed
    ∧ (claimScriptRace "s1" ctxAlice ctxBob 1 2 db0).1 = .proceed
    ∧ (claimScriptRace "s1" ctxAlice ctxBob 1 2 db0).2.1 = .proceed
    ∧ findScript (claimScriptRace "s1" ctxAlice ctxBob 1 2 db0).2.2 "s1"
        = some { script1 with assignedReviewerId := some "bob",
                              assignedAt := some 2 }
    ∧ (claimScript "s1" ctxAlice 1 db0).1.success = true
    ∧ (claimScript "s1" ctxBob 2 db0).1.success = true
    ∧ findScript (claimScriptWrite "s1" "bob" 2 dbAlice) "s1"
        = some { script1 with assignedReviewerId := some "bob",
                              assignedAt := some 2 } := by
  decide

/-! ## Claim C6 -/

/-- C6: a successful PUBLISH from LOCKED stamps `publishedAt`,
`publishedById` and the deep link (a pure function of the video id, hence
deterministic), replaces the analytics table by the upsert of a
zero-initialized row — a creation when absent, a strict no-op when present,
and idempotent under repetition — and advances the parent topic's status to
COMPLETED. -/
theorem publish_stamps_upserts_completes_topic :
    (∀ videoId userId userRole now db video,
      findVideo db videoId = some video →
      video.status = .LOCKED →
      (userRole = .PUBLISHER ∨ userRole = .SUPER_ADMIN) →
      (publishVideo videoId userId userRole now db).1.success = true
      ∧ findVideo (publishVideo videoId userId userRole now db).2 videoId
          = some (videoTransitionUpdate .PUBLISH .PUBLISHED userId videoId now video)
      ∧ (videoTransitionUpdate .PUBLISH .PUBLISHED userId videoId now
          video).publishedAt = some now
      ∧ (videoTransitionUpdate .PUBLISH .PUBLISHED userId videoId now
          video).publishedById = some userId
      ∧ (videoTransitionUpdate .PUBLISH .PUBLISHED userId videoId now
          video).deepLink = some (videoDeepLink videoId)
      ∧ (publishVideo videoId userId userRole now db).2.videoAnalytics
          = upsertVideoAnalytics videoId db.videoAnalytics
      ∧ (∀ topic, findTopic db video.topicId = some topic →
          findTopic (publishVideo videoId userId userRole now db).2 video.topicId
            = some { topic with status := .COMPLETED }))
    ∧ (∀ videoId, videoDeepLink videoId = "practo://hub/video/" ++ videoId)
    ∧ (∀ videoId rows, (rows.find? (fun a => a.videoId == videoId)).isSome →
        upsertVideoAnalytics videoId rows = rows)
    ∧ (∀ videoId rows, (rows.find? (fun a => a.videoId == videoId)).isSome = false →
        upsertVideoAnalytics videoId rows
          = rows ++ [({ videoId := videoId } : VideoAnalytics)])
    ∧ (∀ videoId, ({ videoId := videoId } : VideoAnalytics)
        = { videoId := videoId, views := 0, uniqueViews := 0, quizStarted := 0,
            quizCompleted := 0, consultClicked := 0, consultCompleted := 0 })
    ∧ (∀ videoId rows,
        upsertVideoAnalytics videoId (upsertVideoAnalytics videoId rows)
          = upsertVideoAnalytics videoId rows) := by
  have hupsert_mem : ∀ (videoId : String) (rows : List VideoAnalytics),
      ((upsertVideoAnalytics videoId rows).find?
        (fun a => a.videoId == videoId)).isSome := by
    intro videoId rows
    unfold upsertVideoAnalytics
    by_cases hp : ((rows.find? (fun a => a.videoId == videoId)).isSome : Prop)
    · simpa [hp] using hp
    · rw [if_neg hp]
      rw [Option.isSome_iff_exists]
      have : ∃ x ∈ rows ++ [({ videoId := videoId } : VideoAnalytics)],
          (fun a => a.videoId == videoId) x = true :=
        ⟨{ videoId := videoId }, by simp⟩
      rcases List.find?_isSome.mpr this with h
      rcases Option.isSome_iff_exists.mp h with ⟨x, hx⟩
      exact ⟨x, hx⟩
  refine ⟨?_, fun videoId => rfl, ?_, ?_, fun videoId => rfl, ?_⟩
  · intro videoId userId userRole now db video hfind hst hrole
    have hv : (isValidVideoTransition video.status .PUBLISH
        ({ userId := userId, userRole := userRole } : TransitionContext).userRole).valid
        = true := by
      rw [hst]
      rcases hrole with h | h <;> rw [h] <;> rfl
    have hns : (isValidVideoTransition video.status .PUBLISH
        ({ userId := userId, userRole := userRole } : TransitionContext).userRole).nextState
        = some .PUBLISHED := by
      rw [hst]
      rcases hrole with h | h <;> rw [h] <;> rfl
    have htx := @transitionVideo_valid_eq videoId .PUBLISH
      { userId := userId, userRole := userRole } now false db video .PUBLISHED
      hfind hv hns
    rw [if_neg (by decide), if_pos rfl] at htx
    have hfinal : publishVideo videoId userId userRole now db
        = ({ success := true,
             data := some (videoTransitionUpdate .PUBLISH .PUBLISHED userId
               videoId now video), error := none },
           { db with
             videos := updateVideoRows videoId
               (videoTransitionUpdate .PUBLISH .PUBLISHED userId videoId now)
               db.videos
             topics := updateTopicRows video.topicId
               (fun t => { t with status := TopicStatus.COMPLETED }) db.topics
             videoAnalytics := upsertVideoAnalytics videoId db.videoAnalytics
             auditLogs := db.auditLogs ++ [videoTransitionAuditRow videoId
               .PUBLISH { userId := userId, userRole := userRole }
               video.status .PUBLISHED] }) := by
      unfold publishVideo
      rw [htx]
      rfl
    refine ⟨?_, ?_, rfl, rfl, rfl, ?_, ?_⟩
    · rw [hfinal]
    · rw [hfinal]
      show (updateVideoRows videoId
        (videoTransitionUpdate .PUBLISH .PUBLISHED userId videoId now)
        db.videos).find? (fun v => v.id == videoId) = _
      rw [findVideo_update db videoId
        (videoTransitionUpdate .PUBLISH .PUBLISHED userId videoId now)
        (fun v => rfl), hfind]
      rfl
    · rw [hfinal]
    · intro topic htopic
      rw [hfinal]
      show (updateTopicRows video.topicId
        (fun t => { t with status := TopicStatus.COMPLETED })
        db.topics).find? (fun t => t.id == video.topicId) = _
      rw [findTopic_update db video.topicId
        (fun t => { t with status := TopicStatus.COMPLETED })
        (fun t => rfl), htopic]
      rfl
  · intro videoId rows hp
    unfold upsertVideoAnalytics
    rw [if_pos hp]
  · intro videoId rows hp
    unfold upsertVideoAnalytics
    rw [if_neg (by rw [hp]; exact Bool.false_ne_true)]
  · intro videoId rows
    have h := hupsert_mem videoId rows
    calc upsertVideoAnalytics videoId (upsertVideoAnalytics videoId rows)
        = if ((upsertVideoAnalytics videoId rows).find?
              (fun a => a.videoId == videoId)).isSome = true then
            upsertVideoAnalytics videoId rows
          else
            upsertVideoAnalytics videoId rows
              ++ [({ videoId := videoId } : VideoAnalytics)] := rfl
      _ = upsertVideoAnalytics videoId rows := by rw [if_pos h]

/-- Witness for C6: publishing the concrete LOCKED `video1` by a publisher
stamps all three fields, creates the zero-initialized analytics row, and
completes `topic1`. -/
theorem publish_stamps_upserts_completes_topic_witness :
    (publishVideo "v1" "pat" .PUBLISHER 9 db0).1.success = true
    ∧ findVideo (publishVideo "v1" "pat" .PUBLISHER 9 db0).2 "v1"
        = some (videoTransitionUpdate .PUBLISH .PUBLISHED "pat" "v1" 9 video1)
    ∧ (videoTransitionUpdate .PUBLISH .PUBLISHED "pat" "v1" 9
        video1).publishedAt = some 9
    ∧ (videoTransitionUpdate .PUBLISH .PUBLISHED "pat" "v1" 9
        video1).publishedById = some "pat"
    ∧ (videoTransitionUpdate .PUBLISH .PUBLISHED "pat" "v1" 9
        video1).deepLink = some (videoDeepLink "v1")
    ∧ (publishVideo "v1" "pat" .PUBLISHER 9 db0).2.videoAnalytics
        = upsertVideoAnalytics "v1" db0.videoAnalytics
    ∧ findTopic (publishVideo "v1" "pat" .PUBLISHER 9 db0).2 video1.topicId
        = some { topic1 with status := .COMPLETED } :=
  have h := publish_stamps_upserts_completes_topic.1 "v1" "pat" .PUBLISHER 9 db0
    video1 (by decide) (by decide) (Or.inl rfl)
  ⟨h.1, h.2.1, h.2.2.1, h.2.2.2.1, h.2.2.2.2.1, h.2.2.2.2.2.1,
    h.2.2.2.2.2.2 topic1 (by decide)⟩

/-! ## Claim C7 -/

/-- C7 counterexample: the claim's last conjunct says that for no role does
the generic transition path accept the UNLOCK action, but both kind tables
hold an UNLOCK entry from LOCKED for SUPER_ADMIN: the validator accepts it,
and the generic executor itself runs it successfully on the concrete locked
script `s2`. -/
theorem unlock_reachable_generically_counterexample :
    (isValidScriptTransition .LOCKED .UNLOCK .SUPER_ADMIN).valid = true
    ∧ (isValidVideoTransition .LOCKED .UNLOCK .SUPER_ADMIN).valid = true
    ∧ (transitionScript "s2" .UNLOCK ctxCarol 9 false db0).1.success = true := by
  decide

/-- C7 amended: the dedicated unlock operations are legal only from LOCKED
and only for SUPER_ADMIN (any other role gets the Forbidden-style failure,
any other stage a failure naming the current stage, both leaving the store
unchanged); their effect is exactly stage APPROVED with `lockedById` /
`lockedAt` cleared; and the UNLOCK action is also present in the generic
transition table from LOCKED — it is accepted there for SUPER_ADMIN and for
no other role, so unlock is reachable through the generic transition path
too (which, unlike the dedicated operation, does not clear the lock pair). -/
theorem unlock_guarded_super_admin :
    (∀ scriptId ctx db, ctx.userRole ≠ .SUPER_ADMIN →
      unlockScript scriptId ctx db
        = ({ success := false, data := none,
             error := some "Only Super Admin can unlock scripts" }, db))
    ∧ (∀ scriptId ctx db script, findScript db scriptId = some script →
      ctx.userRole = .SUPER_ADMIN → script.status ≠ .LOCKED →
      unlockScript scriptId ctx db
        = ({ success := false, data := none,
             error := some ("Script is not locked. Current status: "
               ++ scriptStatusName script.status) }, db))
    ∧ (∀ scriptId ctx db script, findScript db scriptId = some script →
      ctx.userRole = .SUPER_ADMIN → script.status = .LOCKED →
      (unlockScript scriptId ctx db).1.success = true
      ∧ findScript (unlockScript scriptId ctx db).2 scriptId
          = some { script with status := .APPROVED,
                               lockedById := none, lockedAt := none })
    ∧ (∀ videoId ctx db, ctx.userRole ≠ .SUPER_ADMIN →
      unlockVideo videoId ctx db
        = ({ success := false, data := none,
             error := some "Only Super Admin can unlock videos" }, db))
    ∧ (∀ videoId ctx db video, findVideo db videoId = some video →
      ctx.userRole = .SUPER_ADMIN → video.status ≠ .LOCKED →
      unlockVideo videoId ctx db
        = ({ success := false, data := none,
             error := some ("Video is not locked. Current status: "
               ++ videoStatusName video.status) }, db))
    ∧ (∀ videoId ctx db video, findVideo db videoId = some video →
      ctx.userRole = .SUPER_ADMIN → video.status = .LOCKED →
      (unlockVideo videoId ctx db).1.success = true
      ∧ findVideo (unlockVideo videoId ctx db).2 videoId
          = some { video with status := .APPROVED,
                              lockedById := none, lockedAt := none })
    ∧ (∀ r : UserRole,
      ((isValidScriptTransition .LOCKED .UNLOCK r).valid = true ↔ r = .SUPER_ADMIN)
      ∧ ((isValidVideoTransition .LOCKED .UNLOCK r).valid = true ↔ r = .SUPER_ADMIN)) := by
  refine ⟨?_, ?_, ?_, ?_, ?_, ?_, by decide⟩
  · intro scriptId ctx db hrole
    simp [unlockScript, LOCK_PERMISSIONS_CAN_UNLOCK, hrole]
  · intro scriptId ctx db script hfind hrole hst
    simp [unlockScript, LOCK_PERMISSIONS_CAN_UNLOCK, hrole, hfind, hst]
  · intro scriptId ctx db script hfind hrole hst
    have hrow : (updateScriptRows scriptId
        (fun s => { s with status := ScriptStatus.APPROVED,
                           lockedById := none, lockedAt := none })
        db.scripts).find? (fun s => s.id == scriptId)
        = some { script with status := .APPROVED,
                             lockedById := none, lockedAt := none } := by
      rw [findScript_update db scriptId
        (fun s => { s with status := ScriptStatus.APPROVED,
                           lockedById := none, lockedAt := none })
        (fun s => rfl), hfind]
      rfl
    constructor
    · simp [unlockScript, LOCK_PERMISSIONS_CAN_UNLOCK, hrole, hfind, hst]
    · simp [unlockScript, LOCK_PERMISSIONS_CAN_UNLOCK, hrole, hfind, hst]
      simpa [findScript] using hrow
  · intro videoId ctx db hrole
    simp [unlockVideo, LOCK_PERMISSIONS_CAN_UNLOCK, hrole]
  · intro videoId ctx db video hfind hrole hst
    simp [unlockVideo, LOCK_PERMISSIONS_CAN_UNLOCK, hrole, hfind, hst]
  · intro videoId ctx db video hfind hrole hst
    have hrow : (updateVideoRows videoId
        (fun v => { v with status := VideoStatus.APPROVED,
                           lockedById := none, lockedAt := none })
        db.videos).find? (fun v => v.id == videoId)
        = some { video with status := .APPROVED,
                            lockedById := none, lockedAt := none } := by
      rw [findVideo_update db videoId
        (fun v => { v with status := VideoStatus.APPROVED,
                           lockedById := none, lockedAt := none })
        (fun v => rfl), hfind]
      rfl
    constructor
    · simp [unlockVideo, LOCK_PERMISSIONS_CAN_UNLOCK, hrole, hfind, hst]
    · simp [unlockVideo, LOCK_PERMISSIONS_CAN_UNLOCK, hrole, hfind, hst]
      simpa [findVideo] using hrow

/-- Witness for C7 (amended): bob cannot unlock the locked `s2`; carol
(super-admin) unlocks it back to exactly APPROVED with the lock pair
cleared. -/
theorem unlock_guarded_super_admin_witness :
    unlockScript "s2" ctxBob db0
      = ({ success := false, data := none,
           error := some "Only Super Admin can unlock scripts" }, db0)
    ∧ (unlockScript "s2" ctxCarol db0).1.success = true
    ∧ findScript (unlockScript "s2" ctxCarol db0).2 "s2"
        = some { script2 with status := .APPROVED,
                              lockedById := none, lockedAt := none } :=
  have h := unlock_guarded_super_admin.2.2.1 "s2" ctxCarol db0 script2
    (by decide) rfl (by decide)
  ⟨unlock_guarded_super_admin.1 "s2" ctxBob db0 (by decide), h.1, h.2⟩

/-! ## Claim C9 -/

/-- C9 counterexample: a successful claim — a mutating call of the engine —
appends exactly one audit entry, but that entry's old/new snapshots carry no
stage value at all (no `status` key): they record the claim field, not the
item's pre- and post-operation stage (which is MEDICAL_REVIEW on both
sides), so the snapshots do not "accurately record the item's pre- and
post-operation stage values" as claimed. -/
theorem audit_snapshot_not_stage_counterexample :
    script1.status = .MEDICAL_REVIEW
    ∧ (claimScript "s1" ctxAlice 1 db0).1.success = true
    ∧ (claimScript "s1" ctxAlice 1 db0).2.auditLogs = [claimAuditEntryAlice]
    ∧ claimAuditEntryAlice.oldValue.status = none
    ∧ claimAuditEntryAlice.newValue.status = none := by
  decide

/-- C9 amended: every successful mutating call of the engine appends exactly
one audit entry — except the idempotent re-claim, which appends none and
changes nothing; transition, lock and unlock entries record the item's pre-
and post-operation stage values accurately in their old/new snapshots, while
claim and release entries record the pre- and post-operation
`assignedReviewerId` instead of stage values. -/
theorem audit_exactly_one_entry_refined :
    (∀ scriptId a ctx now ff db script,
      findScript db scriptId = some script →
      (transitionScript scriptId a ctx now ff db).1.success = true →
      ∃ ns, (isValidScriptTransition script.status a ctx.userRole).nextState
          = some ns
        ∧ (transitionScript scriptId a ctx now ff db).2.auditLogs
            = db.auditLogs
              ++ [scriptTransitionAuditRow scriptId a ctx script.status ns])
    ∧ (∀ videoId a ctx now ff db video,
      findVideo db videoId = some video →
      (transitionVideo videoId a ctx now ff db).1.success = true →
      ∃ ns, (isValidVideoTransition video.status a ctx.userRole).nextState
          = some ns
        ∧ (transitionVideo videoId a ctx now ff db).2.auditLogs
            = db.auditLogs
              ++ [videoTransitionAuditRow videoId a ctx video.status ns])
    ∧ (∀ scriptId ctx now db script,
      findScript db scriptId = some script →
      (lockScript scriptId ctx now db).1.success = true →
      script.status = .APPROVED
      ∧ (lockScript scriptId ctx now db).2.auditLogs
          = db.auditLogs
            ++ [{ userId := ctx.userId, action := "LOCK_SCRIPT",
                  entityType := "SCRIPT", entityId := scriptId,
                  oldValue := { status := some "APPROVED" },
                  newValue := { status := some "LOCKED",
                                lockedById := some (some ctx.userId) } }])
    ∧ (∀ scriptId ctx db script,
      findScript db scriptId = some script →
      (unlockScript scriptId ctx db).1.success = true →
      script.status = .LOCKED
      ∧ (unlockScript scriptId ctx db).2.auditLogs
          = db.auditLogs
            ++ [{ userId := ctx.userId, action := "EMERGENCY_UNLOCK_SCRIPT",
                  entityType := "SCRIPT", entityId := scriptId,
                  oldValue := { status := some "LOCKED" },
                  newValue := { status := some "APPROVED" } }])
    ∧ (∀ videoId ctx now db video,
      findVideo db videoId = some video →
      (lockVideo videoId ctx now db).1.success = true →
      video.status = .APPROVED
      ∧ (lockVideo videoId ctx now db).2.auditLogs
          = db.auditLogs
            ++ [{ userId := ctx.userId, action := "LOCK_VIDEO",
                  entityType := "VIDEO", entityId := videoId,
                  oldValue := { status := some "APPROVED" },
                  newValue := { status := some "LOCKED",
                                lockedById := some (some ctx.userId) } }])
    ∧ (∀ videoId ctx db video,
      findVideo db videoId = some video →
      (unlockVideo videoId ctx db).1.success = true →
      video.status = .LOCKED
      ∧ (unlockVideo videoId ctx db).2.auditLogs
          = db.auditLogs
            ++ [{ userId := ctx.userId, action := "EMERGENCY_UNLOCK_VIDEO",
                  entityType := "VIDEO", entityId := videoId,
                  oldValue := { status := some "LOCKED" },
                  newValue := { status := some "APPROVED" } }])
    ∧ (∀ scriptId ctx now db script,
      findScript db scriptId = some script →
      script.assignedReviewerId = none →
      ctx.userRole ∈ getRolesForScriptStage script.status →
      (claimScript scriptId ctx now db).1.success = true
      ∧ (claimScript scriptId ctx now db).2.auditLogs
          = db.auditLogs
            ++ [{ userId := ctx.userId, action := "CLAIM_SCRIPT",
                  entityType := "SCRIPT", entityId := scriptId,
                  oldValue := { assignedReviewerId := some none },
                  newValue := { assignedReviewerId := some (some ctx.userId) } }])
    ∧ (∀ scriptId ctx now db script,
      findScript db scriptId = some script →
      script.assignedReviewerId = some ctx.userId →
      (claimScript scriptId ctx now db).1.success = true
      ∧ (claimScript scriptId ctx now db).2 = db)
    ∧ (∀ videoId ctx now db video,
      findVideo db videoId = some video →
      video.assignedReviewerId = none →
      ctx.userRole ∈ getRolesForVideoStage video.status →
      (claimVideo videoId ctx now db).1.success = true
      ∧ (claimVideo videoId ctx now db).2.auditLogs
          = db.auditLogs
            ++ [{ userId := ctx.userId, action := "CLAIM_VIDEO",
                  entityType := "VIDEO", entityId := videoId,
                  oldValue := { assignedReviewerId := some none },
                  newValue := { assignedReviewerId := some (some ctx.userId) } }])
    ∧ (∀ videoId ctx now db video,
      findVideo db videoId = some video →
      video.assignedReviewerId = some ctx.userId →
      (claimVideo videoId ctx now db).1.success = true
      ∧ (claimVideo videoId ctx now db).2 = db)
    ∧ (∀ scriptId ctx db script,
      findScript db scriptId = some script →
      (releaseScript scriptId ctx db).1.success = true →
      (releaseScript scriptId ctx db).2.auditLogs
        = db.auditLogs
          ++ [{ userId := ctx.userId,
                action := if ctx.userRole = .SUPER_ADMIN
                    ∧ script.assignedReviewerId ≠ some ctx.userId then
                    "FORCE_RELEASE_SCRIPT"
                  else
                    "RELEASE_SCRIPT",
                entityType := "SCRIPT", entityId := scriptId,
                oldValue := { assignedReviewerId := some script.assignedReviewerId },
                newValue := { assignedReviewerId := some none } }])
    ∧ (∀ videoId ctx db video,
      findVideo db videoId = some video →
      (releaseVideo videoId ctx db).1.success = true →
      (releaseVideo videoId ctx db).2.auditLogs
        = db.auditLogs
          ++ [{ userId := ctx.userId,
                action := if ctx.userRole = .SUPER_ADMIN
                    ∧ video.assignedReviewerId ≠ some ctx.userId then
                    "FORCE_RELEASE_VIDEO"
                  else
                    "RELEASE_VIDEO",
                entityType := "VIDEO", entityId := videoId,
                oldValue := { assignedReviewerId := some video.assignedReviewerId },
                newValue := { assignedReviewerId := some none } }]) := by
  refine ⟨?_, ?_, ?_, ?_, ?_, ?_, ?_, ?_, ?_, ?_, ?_, ?_⟩
  · intro scriptId a ctx now ff db script hfind hsucc
    rcases transitionScript_success_spec hfind hsucc with ⟨ns, -, hns, -, -, haudit⟩
    exact ⟨ns, hns, haudit⟩
  · intro videoId a ctx now ff db video hfind hsucc
    rcases transitionVideo_success_spec hfind hsucc with ⟨ns, -, hns, -, -, haudit⟩
    exact ⟨ns, hns, haudit⟩
  · intro scriptId ctx now db script hfind hsucc
    by_cases hrole : ctx.userRole ∈ LOCK_PERMISSIONS_CAN_LOCK_SCRIPT
    · by_cases hst : script.status = .APPROVED
      · exact ⟨hst, by simp [lockScript, hrole, hfind, hst]⟩
      · simp [lockScript, hrole, hfind, hst] at hsucc
    · simp [lockScript, hrole] at hsucc
  · intro scriptId ctx db script hfind hsucc
    by_cases hrole : ctx.userRole ∈ LOCK_PERMISSIONS_CAN_UNLOCK
    · by_cases hst : script.status = .LOCKED
      · exact ⟨hst, by simp [unlockScript, hrole, hfind, hst]⟩
      · simp [unlockScript, hrole, hfind, hst] at hsucc
    · simp [unlockScript, hrole] at hsucc
  · intro videoId ctx now db video hfind hsucc
    by_cases hrole : ctx.userRole ∈ LOCK_PERMISSIONS_CAN_LOCK_VIDEO
    · by_cases hst : video.status = .APPROVED
      · exact ⟨hst, by simp [lockVideo, hrole, hfind, hst]⟩
      · simp [lockVideo, hrole, hfind, hst] at hsucc
    · simp [lockVideo, hrole] at hsucc
  · intro videoId ctx db video hfind hsucc
    by_cases hrole : ctx.userRole ∈ LOCK_PERMISSIONS_CAN_UNLOCK
    · by_cases hst : video.status = .LOCKED
      · exact ⟨hst, by simp [unlockVideo, hrole, hfind, hst]⟩
      · simp [unlockVideo, hrole, hfind, hst] at hsucc
    · simp [unlockVideo, hrole] at hsucc
  · intro scriptId ctx now db script hfind hassigned hrole
    have hdec : claimScriptDecision scriptId ctx db = .proceed := by
      simp [claimScriptDecision, hfind, hassigned, hrole]
    constructor
    · simp [claimScript, hdec]
    · simp [claimScript, hdec, claimScriptAudit, claimScriptWrite]
  · intro scriptId ctx now db script hfind hassigned
    have hdec : claimScriptDecision scriptId ctx db = .idempotent := by
      simp [claimScriptDecision, hfind, hassigned]
    exact ⟨by simp [claimScript, hdec], by simp [claimScript, hdec]⟩
  · intro videoId ctx now db video hfind hassigned hrole
    have hdec : claimVideoDecision videoId ctx db = .proceed := by
      simp [claimVideoDecision, hfind, hassigned, hrole]
    constructor
    · simp [claimVideo, hdec]
    · simp [claimVideo, hdec, claimVideoAudit, claimVideoWrite]
  · intro videoId ctx now db video hfind hassigned
    have hdec : claimVideoDecision videoId ctx db = .idempotent := by
      simp [claimVideoDecision, hfind, hassigned]
    exact ⟨by simp [claimVideo, hdec], by simp [claimVideo, hdec]⟩
  · intro scriptId ctx db script hfind hsucc
    by_cases hcond : script.assignedReviewerId ≠ some ctx.userId
        ∧ ctx.userRole ≠ .SUPER_ADMIN
    · simp [releaseScript, hfind, hcond] at hsucc
    · simp [releaseScript, hfind, hcond]
  · intro videoId ctx db video hfind hsucc
    by_cases hcond : video.assignedReviewerId ≠ some ctx.userId
        ∧ ctx.userRole ≠ .SUPER_ADMIN
    · simp [releaseVideo, hfind, hcond] at hsucc
    · simp [releaseVideo, hfind, hcond]

/-- Witness for C9 (amended): alice's concrete successful claim appends
exactly the one CLAIM_SCRIPT entry, and her immediate re-claim appends
nothing and leaves the store unchanged. -/
theorem audit_exactly_one_entry_refined_witness :
    ((claimScript "s1" ctxAlice 1 db0).1.success = true
      ∧ (claimScript "s1" ctxAlice 1 db0).2.auditLogs
          = db0.auditLogs ++ [claimAuditEntryAlice])
    ∧ ((claimScript "s1" ctxAlice 9 dbAlice).1.success = true
      ∧ (claimScript "s1" ctxAlice 9 dbAlice).2 = dbAlice) :=
  ⟨audit_exactly_one_entry_refined.2.2.2.2.2.2.1 "s1" ctxAlice 1 db0 script1
      (by decide) (by decide) (by decide),
   audit_exactly_one_entry_refined.2.2.2.2.2.2.2.1 "s1" ctxAlice 9 dbAlice
      script1Alice (by decide) (by decide)⟩

end PractoCms
